import Mathlib

/-!
Verification of splat-transform's packed-PLY codec, SH rotation and
processing pipeline against a shallow embedding of the TypeScript source.

Conventions of the embedding:
* JS `number` arithmetic is modelled over `ℝ` (the source performs plain
  IEEE double / float32 arithmetic; the claims under verification are about
  the algebraic formulas, bit layouts, column/row bookkeeping and control
  flow, none of which depend on rounding).
* Typed-array contents are modelled as `List ℝ` (float32) or `List ℕ`
  (uint32 / uint8, values kept below the width by hypotheses where the bit
  layout matters).
* Fallible JS code (`throw`) is modelled with `Except`.
-/

namespace SplatTransform

/-! ## PLY data model (readers side)

The `DataTable` / `Column` classes live in `src/lib/data-table/data-table.ts`,
which is not part of the staged sources; only their accessors are used by
`decompress-ply.ts`.  Modelled from the spec: §3 "Column: (name, dataType,
data: contiguous numeric buffer)"; "Table: ordered mapping of column name →
Column (names unique); all columns share one row count"; §4.1 `hasColumn`,
`getColumn` accessors. -/

/-- A column's typed buffer: the three element types the compressed-PLY
reader touches (`float32`, `uint32`, `uint8`). -/
inductive PlyColData where
  | f32 : List ℝ → PlyColData
  | u32 : List ℕ → PlyColData
  | u8 : List ℕ → PlyColData

/-- `Column.dataType` as derived from the buffer kind (in the source the
string and the typed-array constructor are created in lockstep). -/
def PlyColData.dataType : PlyColData → String
  | .f32 _ => "float32"
  | .u32 _ => "uint32"
  | .u8 _ => "uint8"

/-- Buffer length. -/
def PlyColData.length : PlyColData → ℕ
  | .f32 l => l.length
  | .u32 l => l.length
  | .u8 l => l.length

/-- The buffer read as a `Float32Array` (the reader's `data as Float32Array`
casts; junk `[]` when the column is not float32, which the detection
predicate rules out). -/
def PlyColData.asF32 : PlyColData → List ℝ
  | .f32 l => l
  | _ => []

/-- The buffer read as a `Uint32Array`. -/
def PlyColData.asU32 : PlyColData → List ℕ
  | .u32 l => l
  | _ => []

/-- The buffer read as a `Uint8Array`. -/
def PlyColData.asU8 : PlyColData → List ℕ
  | .u8 l => l
  | _ => []

/-- Modelled from the spec: §3 Column. -/
structure PlyColumn where
  name : String
  data : PlyColData

/-- `Column.dataType`. -/
def PlyColumn.dataType (c : PlyColumn) : String := c.data.dataType

/-- Modelled from the spec: §3 Table (ordered list of named columns). -/
structure PlyTable where
  columns : List PlyColumn

/-- `DataTable.numColumns`. -/
def PlyTable.numColumns (dt : PlyTable) : ℕ := dt.columns.length

/-- Modelled from the spec: every column's buffer length equals the table's
row count; the row count is read off the first column (0 for an empty
table). -/
def PlyTable.numRows (dt : PlyTable) : ℕ :=
  ((dt.columns.head?).map (fun c => c.data.length)).getD 0

/-- `DataTable.getColumnByName` (first column of that name). -/
def PlyTable.getColumnByName (dt : PlyTable) (name : String) : Option PlyColumn :=
  dt.columns.find? (fun c => c.name == name)

/-- `DataTable.hasColumn`. -/
def PlyTable.hasColumn (dt : PlyTable) (name : String) : Bool :=
  (dt.getColumnByName name).isSome

/-- `DataTable.getColumn(k)` (k-th column). -/
def PlyTable.getColumn (dt : PlyTable) (k : ℕ) : Option PlyColumn :=
  dt.columns.get? k

/-- One PLY element (a named section with a data table), as produced by
`read-ply.ts`. -/
structure PlyElement where
  name : String
  dataTable : PlyTable

/-- `PlyData`: the sequence of elements of a parsed PLY file. -/
structure PlyData where
  elements : List PlyElement

/-! ## isCompressedPly (src/lib/readers/decompress-ply.ts, lines 7-90) -/

/-- `CHUNK_SIZE`: number of splats per chunk in the compressed format. -/
def CHUNK_SIZE : ℕ := 256

/-- `hasShape`: every listed column exists and has the given data type. -/
def hasShape (dataTable : PlyTable) (columns : List String) (type : String) : Bool :=
  columns.all (fun name =>
    match dataTable.getColumnByName name with
    | some col => col.dataType == type
    | none => false)

/-- The 12 required chunk properties (position and log-scale bounds). -/
def requiredChunkProperties : List String :=
  ["min_x", "min_y", "min_z", "max_x", "max_y", "max_z",
   "min_scale_x", "min_scale_y", "min_scale_z",
   "max_scale_x", "max_scale_y", "max_scale_z"]

/-- The 6 optional per-chunk color bound properties. -/
def colorChunkProperties : List String :=
  ["min_r", "min_g", "min_b", "max_r", "max_g", "max_b"]

/-- The 4 packed vertex properties. -/
def vertexProperties : List String :=
  ["packed_position", "packed_rotation", "packed_scale", "packed_color"]

/-- `Math.ceil(n / 256)` over naturals. -/
def ceilDiv256 (n : ℕ) : ℕ := (n + (CHUNK_SIZE - 1)) / CHUNK_SIZE

/-- `isCompressedPly`: detection of the compressed PLY schema, translated
early-return by early-return from the source. -/
def isCompressedPly (ply : PlyData) : Bool :=
  let numElements := ply.elements.length
  if !(numElements == 2 || numElements == 3) then false else
  match ply.elements.find? (fun e => e.name == "chunk") with
  | none => false
  | some chunk =>
    if !hasShape chunk.dataTable requiredChunkProperties "float32" then false else
    -- accept either 12 (no per-chunk color) or 18 (with per-chunk color) chunk properties
    let numChunkCols := chunk.dataTable.numColumns
    let chunkColsOk :=
      if numChunkCols == requiredChunkProperties.length + colorChunkProperties.length then
        hasShape chunk.dataTable colorChunkProperties "float32"
      else numChunkCols == requiredChunkProperties.length
    if !chunkColsOk then false else
    match ply.elements.find? (fun e => e.name == "vertex") with
    | none => false
    | some vertex =>
      if !hasShape vertex.dataTable vertexProperties "uint32" then false else
      if !(ceilDiv256 vertex.dataTable.numRows == chunk.dataTable.numRows) then false else
      -- check optional spherical harmonics
      if numElements == 3 then
        match ply.elements.find? (fun e => e.name == "sh") with
        | none => false
        | some sh =>
          let shData := sh.dataTable
          if !(shData.numColumns == 9 || shData.numColumns == 24 || shData.numColumns == 45)
          then false else
          if !((List.range shData.numColumns).all (fun i =>
                match shData.getColumnByName s!"f_rest_{i}" with
                | some col => col.dataType == "uint8"
                | none => false))
          then false else
          shData.numRows == vertex.dataTable.numRows
      else true

/-- The sh-element condition shared by the claim-side predicates: exactly 9,
24 or 45 uint8 columns named `f_rest_0..N-1`, with the vertex's row count. -/
def shSectionOk (shData : PlyTable) (vertexRows : ℕ) : Bool :=
  (shData.numColumns == 9 || shData.numColumns == 24 || shData.numColumns == 45) &&
  (List.range shData.numColumns).all (fun i =>
    match shData.getColumnByName s!"f_rest_{i}" with
    | some col => col.dataType == "uint8"
    | none => false) &&
  shData.numRows == vertexRows

/-- The chunk-element condition of the claim: exactly 12 float32 columns
(the min/max position and log-scale bounds) or exactly 18 (additionally the
min/max color bounds). -/
def chunkSectionOk (chunkData : PlyTable) : Bool :=
  (chunkData.numColumns == 12 && hasShape chunkData requiredChunkProperties "float32") ||
  (chunkData.numColumns == 18 &&
    hasShape chunkData (requiredChunkProperties ++ colorChunkProperties) "float32")

/-- The detection condition exactly as claim C1 states it: in particular the
`vertex` element must have *exactly* 4 uint32 columns. -/
def compressedPlyClaimSpec (ply : PlyData) : Bool :=
  (ply.elements.length == 2 || ply.elements.length == 3) &&
  (match ply.elements.find? (fun e => e.name == "chunk"),
         ply.elements.find? (fun e => e.name == "vertex") with
   | some chunk, some vertex =>
     chunkSectionOk chunk.dataTable &&
     (vertex.dataTable.numColumns == 4 &&
      hasShape vertex.dataTable vertexProperties "uint32") &&
     (ceilDiv256 vertex.dataTable.numRows == chunk.dataTable.numRows) &&
     (if ply.elements.length == 3 then
        match ply.elements.find? (fun e => e.name == "sh") with
        | some sh => shSectionOk sh.dataTable vertex.dataTable.numRows
        | none => false
      else true)
   | _, _ => false)

/-- C1 as amended: the `vertex` element must *contain* the 4 uint32 packed
columns; extra vertex columns are not rejected.  Everything else as the
claim states it. -/
def compressedPlyAmendedSpec (ply : PlyData) : Bool :=
  (ply.elements.length == 2 || ply.elements.length == 3) &&
  (match ply.elements.find? (fun e => e.name == "chunk"),
         ply.elements.find? (fun e => e.name == "vertex") with
   | some chunk, some vertex =>
     chunkSectionOk chunk.dataTable &&
     hasShape vertex.dataTable vertexProperties "uint32" &&
     (ceilDiv256 vertex.dataTable.numRows == chunk.dataTable.numRows) &&
     (if ply.elements.length == 3 then
        match ply.elements.find? (fun e => e.name == "sh") with
        | some sh => shSectionOk sh.dataTable vertex.dataTable.numRows
        | none => false
      else true)
   | _, _ => false)

/-- `hasShape` distributes over list append. -/
lemma hasShape_append (dt : PlyTable) (a b : List String) (ty : String) :
    hasShape dt (a ++ b) ty = (hasShape dt a ty && hasShape dt b ty) := by
  simp [hasShape, List.all_append]

/-- The chunk-column acceptance test of the source (required shape already
checked, then 18- or 12-column count) equals the claim's disjunction. -/
lemma chunkCols_equiv (dt : PlyTable) :
    (hasShape dt requiredChunkProperties "float32" &&
      (if dt.numColumns == requiredChunkProperties.length + colorChunkProperties.length then
        hasShape dt colorChunkProperties "float32"
      else dt.numColumns == requiredChunkProperties.length)) = chunkSectionOk dt := by
  have hlen : requiredChunkProperties.length + colorChunkProperties.length = 18 := by
    simp [requiredChunkProperties, colorChunkProperties]
  have hlen12 : requiredChunkProperties.length = 12 := by simp [requiredChunkProperties]
  rw [chunkSectionOk, hasShape_append, hlen, hlen12]
  by_cases h18 : dt.numColumns = 18
  · have h12 : (dt.numColumns == 12) = false := by simp [h18]
    simp [h18, h12, Bool.and_comm, Bool.and_left_comm]
  · have h18b : (dt.numColumns == 18) = false := by simp [h18]
    simp [h18b]
    by_cases h12 : dt.numColumns = 12 <;> simp [h12, Bool.and_comm]

/-- An early `return false` guard `if !c then false else y` is `c && y`. -/
lemma ite_not_false (c y : Bool) : (if (!c) = true then false else y) = (c && y) := by
  cases c <;> simp

/-- The sh-element early-return chain of the source equals `shSectionOk`. -/
lemma shCols_equiv (shData : PlyTable) (vr : ℕ) :
    ((shData.numColumns == 9 || shData.numColumns == 24 || shData.numColumns == 45) &&
      (((List.range shData.numColumns).all (fun i =>
        match shData.getColumnByName s!"f_rest_{i}" with
        | some col => col.dataType == "uint8"
        | none => false)) && (shData.numRows == vr))) = shSectionOk shData vr := by
  simp [shSectionOk, Bool.and_assoc]

/-- C1 (amended): `isCompressedPly` returns `true` iff the input has exactly
2 or 3 elements; an element named `chunk` exists with exactly 12 float32
columns (the min/max position and log-scale bounds) or exactly 18
(additionally the min/max color bounds); an element named `vertex` exists
whose columns include the 4 uint32 columns `packed_position`,
`packed_rotation`, `packed_scale`, `packed_color` (extra vertex columns are
not rejected); `ceil(vertexRows / 256) == chunkRows`; and, when there are 3
elements, an element named `sh` exists with exactly 9, 24, or 45 uint8
columns named `f_rest_0..N-1` and the same row count as `vertex`.  Any
deviation yields `false` (a negative detection), not an error. -/
theorem isCompressedPly_iff_amended (ply : PlyData) :
    isCompressedPly ply = compressedPlyAmendedSpec ply := by
  unfold isCompressedPly compressedPlyAmendedSpec
  simp only [ite_not_false]
  cases hfc : ply.elements.find? (fun e => e.name == "chunk") with
  | none => simp
  | some chunk =>
    cases hfv : ply.elements.find? (fun e => e.name == "vertex") with
    | none => simp
    | some vertex =>
      dsimp only
      rw [← chunkCols_equiv chunk.dataTable]
      cases h3 : (ply.elements.length == 3)
      · simp [h3, Bool.and_assoc]
      · cases hfs : ply.elements.find? (fun e => e.name == "sh") with
        | none => simp [h3, Bool.and_assoc]
        | some sh =>
          simp only [← shCols_equiv]
          simp [h3, Bool.and_assoc]

/-- A concrete PLY input whose `vertex` element carries a fifth column: the
source detector accepts it, the claim's "exactly 4 uint32 columns" rejects
it. -/
def c1Ply : PlyData :=
  ⟨[⟨"chunk", ⟨requiredChunkProperties.map (fun n => ⟨n, .f32 [0]⟩)⟩⟩,
    ⟨"vertex", ⟨vertexProperties.map (fun n => ⟨n, .u32 [0]⟩) ++ [⟨"extra", .f32 [0]⟩]⟩⟩]⟩

/-- C1 counterexample: the claim's "iff" fails on `c1Ply` — the detector
returns `true` although the vertex element has 5 columns, not exactly 4. -/
theorem isCompressedPly_claim_counterexample :
    isCompressedPly c1Ply = true ∧ compressedPlyClaimSpec c1Ply = false := by
  constructor <;> rfl

/-! ## decompressPly (src/lib/readers/decompress-ply.ts, lines 93-244)

JS float arithmetic is modelled over `ℝ`; typed-array reads use `getD _ 0`
(the detection predicate keeps every read in bounds on accepted inputs). -/

noncomputable section

/-- `lerp`. -/
def lerp (a b t : ℝ) : ℝ := a * (1 - t) + b * t

/-- `unpackUnorm`: the low `bits` bits of `value`, normalized to `[0, 1]`. -/
def unpackUnorm (value : ℕ) (bits : ℕ) : ℝ :=
  let t := (1 <<< bits) - 1
  ((value &&& t : ℕ) : ℝ) / (t : ℕ)

/-- `unpack111011`: 11/10/11-bit fields at bits 31-21, 20-11, 10-0. -/
def unpack111011 (value : ℕ) : ℝ × ℝ × ℝ :=
  (unpackUnorm (value >>> 21) 11, unpackUnorm (value >>> 11) 10, unpackUnorm value 11)

/-- `unpack8888`: four 8-bit fields, highest byte first. -/
def unpack8888 (value : ℕ) : ℝ × ℝ × ℝ × ℝ :=
  (unpackUnorm (value >>> 24) 8, unpackUnorm (value >>> 16) 8,
   unpackUnorm (value >>> 8) 8, unpackUnorm value 8)

/-- `unpackRot`: smallest-three quaternion decoding (x, y, z, w order). -/
def unpackRot (value : ℕ) : ℝ × ℝ × ℝ × ℝ :=
  let norm : ℝ := 1.0 / (Real.sqrt 2 * 0.5)
  let a := (unpackUnorm (value >>> 20) 10 - 0.5) * norm
  let b := (unpackUnorm (value >>> 10) 10 - 0.5) * norm
  let c := (unpackUnorm value 10 - 0.5) * norm
  let m := Real.sqrt (max 0 (1.0 - (a * a + b * b + c * c)))
  match value >>> 30 with
  | 0 => (m, a, b, c)
  | 1 => (a, m, b, c)
  | 2 => (a, b, m, c)
  | _ => (a, b, c, m)

/-- `SH_C0`, the SH band-0 normalization constant. -/
def SH_C0 : ℝ := 0.28209479177387814

/-- The `vertex` element's data table (junk empty table when absent; the
source would throw, but every use is guarded by the detection predicate). -/
def vertexTableOf (ply : PlyData) : PlyTable :=
  ((ply.elements.find? (fun e => e.name == "vertex")).map (fun e => e.dataTable)).getD ⟨[]⟩

/-- The `chunk` element's data table. -/
def chunkTableOf (ply : PlyData) : PlyTable :=
  ((ply.elements.find? (fun e => e.name == "chunk")).map (fun e => e.dataTable)).getD ⟨[]⟩

/-- `decompressPly`: per-splat decode of the packed columns, plus the
optional quantized SH bytes, into a flat float table. -/
def decompressPly (ply : PlyData) : PlyTable :=
  let chunkData := chunkTableOf ply
  let getChunk := fun (name : String) =>
    ((chunkData.getColumnByName name).map (fun c => c.data.asF32)).getD []
  let vertexData := vertexTableOf ply
  let packed_position :=
    ((vertexData.getColumnByName "packed_position").map (fun c => c.data.asU32)).getD []
  let packed_rotation :=
    ((vertexData.getColumnByName "packed_rotation").map (fun c => c.data.asU32)).getD []
  let packed_scale :=
    ((vertexData.getColumnByName "packed_scale").map (fun c => c.data.asU32)).getD []
  let packed_color :=
    ((vertexData.getColumnByName "packed_color").map (fun c => c.data.asU32)).getD []
  let min_x := getChunk "min_x"
  let min_y := getChunk "min_y"
  let min_z := getChunk "min_z"
  let max_x := getChunk "max_x"
  let max_y := getChunk "max_y"
  let max_z := getChunk "max_z"
  let min_scale_x := getChunk "min_scale_x"
  let min_scale_y := getChunk "min_scale_y"
  let min_scale_z := getChunk "min_scale_z"
  let max_scale_x := getChunk "max_scale_x"
  let max_scale_y := getChunk "max_scale_y"
  let max_scale_z := getChunk "max_scale_z"
  let hasChunkColors := chunkData.hasColumn "min_r"
  let min_r := getChunk "min_r"
  let min_g := getChunk "min_g"
  let min_b := getChunk "min_b"
  let max_r := getChunk "max_r"
  let max_g := getChunk "max_g"
  let max_b := getChunk "max_b"
  let numSplats := vertexData.numRows
  let mk := fun (f : ℕ → ℝ) => PlyColData.f32 ((List.range numSplats).map f)
  let baseColumns : List PlyColumn :=
    [⟨"x", mk (fun i =>
        lerp (min_x.getD (i / CHUNK_SIZE) 0) (max_x.getD (i / CHUNK_SIZE) 0)
          (unpack111011 (packed_position.getD i 0)).1)⟩,
     ⟨"y", mk (fun i =>
        lerp (min_y.getD (i / CHUNK_SIZE) 0) (max_y.getD (i / CHUNK_SIZE) 0)
          (unpack111011 (packed_position.getD i 0)).2.1)⟩,
     ⟨"z", mk (fun i =>
        lerp (min_z.getD (i / CHUNK_SIZE) 0) (max_z.getD (i / CHUNK_SIZE) 0)
          (unpack111011 (packed_position.getD i 0)).2.2)⟩,
     ⟨"f_dc_0", mk (fun i =>
        let c := unpack8888 (packed_color.getD i 0)
        let cr := if hasChunkColors then
          lerp (min_r.getD (i / CHUNK_SIZE) 0) (max_r.getD (i / CHUNK_SIZE) 0) c.1 else c.1
        (cr - 0.5) / SH_C0)⟩,
     ⟨"f_dc_1", mk (fun i =>
        let c := unpack8888 (packed_color.getD i 0)
        let cg := if hasChunkColors then
          lerp (min_g.getD (i / CHUNK_SIZE) 0) (max_g.getD (i / CHUNK_SIZE) 0) c.2.1 else c.2.1
        (cg - 0.5) / SH_C0)⟩,
     ⟨"f_dc_2", mk (fun i =>
        let c := unpack8888 (packed_color.getD i 0)
        let cb := if hasChunkColors then
          lerp (min_b.getD (i / CHUNK_SIZE) 0) (max_b.getD (i / CHUNK_SIZE) 0) c.2.2.1 else c.2.2.1
        (cb - 0.5) / SH_C0)⟩,
     ⟨"opacity", mk (fun i =>
        -Real.log (1 / (unpack8888 (packed_color.getD i 0)).2.2.2 - 1))⟩,
     ⟨"rot_0", mk (fun i => (unpackRot (packed_rotation.getD i 0)).1)⟩,
     ⟨"rot_1", mk (fun i => (unpackRot (packed_rotation.getD i 0)).2.1)⟩,
     ⟨"rot_2", mk (fun i => (unpackRot (packed_rotation.getD i 0)).2.2.1)⟩,
     ⟨"rot_3", mk (fun i => (unpackRot (packed_rotation.getD i 0)).2.2.2)⟩,
     ⟨"scale_0", mk (fun i =>
        lerp (min_scale_x.getD (i / CHUNK_SIZE) 0) (max_scale_x.getD (i / CHUNK_SIZE) 0)
          (unpack111011 (packed_scale.getD i 0)).1)⟩,
     ⟨"scale_1", mk (fun i =>
        lerp (min_scale_y.getD (i / CHUNK_SIZE) 0) (max_scale_y.getD (i / CHUNK_SIZE) 0)
          (unpack111011 (packed_scale.getD i 0)).2.1)⟩,
     ⟨"scale_2", mk (fun i =>
        lerp (min_scale_z.getD (i / CHUNK_SIZE) 0) (max_scale_z.getD (i / CHUNK_SIZE) 0)
          (unpack111011 (packed_scale.getD i 0)).2.2)⟩]
  -- extract spherical harmonics: one float column per uint8 input column
  let shColumns : List PlyColumn :=
    match ply.elements.find? (fun e => e.name == "sh") with
    | some shElem =>
      shElem.dataTable.columns.map (fun col =>
        ⟨col.name, mk (fun i =>
          let b := col.data.asU8.getD i 0
          let n : ℝ := if b == 0 then 0 else if b == 255 then 1 else ((b : ℝ) + 0.5) / 256
          (n - 0.5) * 8)⟩)
    | none => []
  ⟨baseColumns ++ shColumns⟩

/-- Read a float32 cell of a table (0 when out of range / absent). -/
def PlyTable.f32At (dt : PlyTable) (name : String) (i : ℕ) : ℝ :=
  (((dt.getColumnByName name).map (fun c => c.data.asF32)).getD []).getD i 0

/-- Read a uint32 cell of a table. -/
def PlyTable.u32At (dt : PlyTable) (name : String) (i : ℕ) : ℕ :=
  (((dt.getColumnByName name).map (fun c => c.data.asU32)).getD []).getD i 0

/-- Claim C2's description of the smallest-three decoding: bits 31-30 select
the dropped component, the three 10-bit fields at bits 29-20, 19-10, 9-0
decode as `((field / 1023) - 0.5) * (1 / (sqrt 2 * 0.5))`, and the dropped
component is `sqrt (max 0 (1 - a^2 - b^2 - c^2))`. -/
def smallestThreeSpec (v : ℕ) : ℝ × ℝ × ℝ × ℝ :=
  let dec := fun (s : ℕ) =>
    ((((v / 2 ^ s) % 2 ^ 10 : ℕ) : ℝ) / 1023 - 0.5) * (1 / (Real.sqrt 2 * 0.5))
  let a := dec 20
  let b := dec 10
  let c := dec 0
  let m := Real.sqrt (max 0 (1 - a ^ 2 - b ^ 2 - c ^ 2))
  match (v / 2 ^ 30) % 4 with
  | 0 => (m, a, b, c)
  | 1 => (a, m, b, c)
  | 2 => (a, b, m, c)
  | _ => (a, b, c, m)

/-- The k-th component of a quadruple (quaternion as (rot_0..rot_3)). -/
def rotComponent (r : ℝ × ℝ × ℝ × ℝ) : ℕ → ℝ
  | 0 => r.1
  | 1 => r.2.1
  | 2 => r.2.2.1
  | _ => r.2.2.2

end

/-- `getD` of a mapped range at an in-range index. -/
lemma getD_range_map {f : ℕ → ℝ} {n i : ℕ} (hi : i < n) (d : ℝ) :
    (((List.range n).map f).getD i d) = f i := by
  rw [List.getD_eq_getD_get?, List.get?_map, List.get?_range hi]
  rfl

/-- A 10-bit unorm read equals the claim's `(v / 2^s) % 2^10` bit field. -/
lemma unpackUnorm_ten (v s : ℕ) :
    unpackUnorm (v >>> s) 10 = (((v / 2 ^ s) % 2 ^ 10 : ℕ) : ℝ) / 1023 := by
  have h1 : (1 <<< 10) - 1 = 2 ^ 10 - 1 := by norm_num [Nat.one_shiftLeft]
  simp only [unpackUnorm, h1]
  rw [Nat.and_pow_two_sub_one_eq_mod, Nat.shiftRight_eq_div_pow]
  norm_num

/-- A decoded 10-bit rotation field lands in `[-1/√2, 1/√2]`. -/
lemma decodeTen_mem (x : ℕ) :
    (unpackUnorm x 10 - 0.5) * (1.0 / (Real.sqrt 2 * 0.5)) ∈
      Set.Icc (-(1 / Real.sqrt 2)) (1 / Real.sqrt 2) := by
  have hmask : (1 <<< 10) - 1 = 1023 := by norm_num [Nat.one_shiftLeft]
  have hx : (x &&& ((1 <<< 10) - 1)) ≤ 1023 := by
    rw [hmask]; exact Nat.and_le_right
  simp only [unpackUnorm, hmask]
  set s := Real.sqrt 2 with hsdef
  have hs : 0 < s := Real.sqrt_pos.2 (by norm_num)
  have hne : s * 0.5 ≠ 0 := by positivity
  have hnorm : (1.0 / (s * 0.5)) = 2 / s := by
    field_simp
    ring
  set t : ℝ := ((x &&& 1023 : ℕ) : ℝ) / ((1023 : ℕ) : ℝ) with htdef
  have ht0 : 0 ≤ t := by positivity
  have ht1 : t ≤ 1 := by
    rw [htdef, div_le_one (by norm_num)]
    exact_mod_cast hx
  rw [hnorm]
  constructor
  · rw [show -(1 / s) = (-1) / s by ring,
      show (t - 0.5) * (2 / s) = (2 * t - 1) / s by ring,
      div_le_div_iff_of_pos_right hs]
    linarith
  · rw [show (t - 0.5) * (2 / s) = (2 * t - 1) / s by ring,
      div_le_div_iff_of_pos_right hs]
    linarith

set_option maxRecDepth 4000 in
/-- `unpackRot` computes exactly the claim's smallest-three decoding. -/
lemma unpackRot_eq_spec (v : ℕ) (hv : v < 2 ^ 32) :
    unpackRot v = smallestThreeSpec v := by
  have hsel : (v / 2 ^ 30) % 4 = v >>> 30 := by
    rw [Nat.shiftRight_eq_div_pow]
    exact Nat.mod_eq_of_lt (by omega)
  have hA : (unpackUnorm (v >>> 20) 10 - 0.5) * (1.0 / (Real.sqrt 2 * 0.5)) =
      ((((v / 2 ^ 20) % 2 ^ 10 : ℕ) : ℝ) / 1023 - 0.5) * (1 / (Real.sqrt 2 * 0.5)) := by
    rw [unpackUnorm_ten]; norm_num
  have hB : (unpackUnorm (v >>> 10) 10 - 0.5) * (1.0 / (Real.sqrt 2 * 0.5)) =
      ((((v / 2 ^ 10) % 2 ^ 10 : ℕ) : ℝ) / 1023 - 0.5) * (1 / (Real.sqrt 2 * 0.5)) := by
    rw [unpackUnorm_ten]; norm_num
  have hC : (unpackUnorm v 10 - 0.5) * (1.0 / (Real.sqrt 2 * 0.5)) =
      ((((v / 2 ^ 0) % 2 ^ 10 : ℕ) : ℝ) / 1023 - 0.5) * (1 / (Real.sqrt 2 * 0.5)) := by
    rw [show unpackUnorm v 10 = unpackUnorm (v >>> 0) 10 from rfl, unpackUnorm_ten]; norm_num
  simp only [unpackRot, smallestThreeSpec, hsel, hA, hB, hC]
  set A : ℝ := ((((v / 2 ^ 20) % 2 ^ 10 : ℕ) : ℝ) / 1023 - 0.5) * (1 / (Real.sqrt 2 * 0.5)) with hAd
  set B : ℝ := ((((v / 2 ^ 10) % 2 ^ 10 : ℕ) : ℝ) / 1023 - 0.5) * (1 / (Real.sqrt 2 * 0.5)) with hBd
  set C : ℝ := ((((v / 2 ^ 0) % 2 ^ 10 : ℕ) : ℝ) / 1023 - 0.5) * (1 / (Real.sqrt 2 * 0.5)) with hCd
  have hM : Real.sqrt (max 0 ((1.0 : ℝ) - (A * A + B * B + C * C))) =
      Real.sqrt (max 0 (1 - A ^ 2 - B ^ 2 - C ^ 2)) := by
    have h : (1.0 : ℝ) - (A * A + B * B + C * C) = 1 - A ^ 2 - B ^ 2 - C ^ 2 := by
      norm_num; ring
    rw [h]
  rw [hM]

/-- The component selected by the top two bits is the reconstructed one,
hence non-negative. -/
lemma rotComponent_dropped_nonneg (v : ℕ) :
    0 ≤ rotComponent (unpackRot v) (v >>> 30) := by
  rcases h30 : v >>> 30 with _ | _ | _ | k <;>
    simp only [unpackRot, h30, rotComponent] <;>
    exact_mod_cast Real.sqrt_nonneg _

/-- Every non-dropped decoded component lies in `[-1/√2, 1/√2]`. -/
lemma rotComponent_undropped_mem (v : ℕ) (hv : v < 2 ^ 32) (k : ℕ) (hk : k < 4)
    (hne : k ≠ v >>> 30) :
    rotComponent (unpackRot v) k ∈ Set.Icc (-(1 / Real.sqrt 2)) (1 / Real.sqrt 2) := by
  have h4 : v >>> 30 < 4 := by
    rw [Nat.shiftRight_eq_div_pow]; omega
  rcases h30 : v >>> 30 with _ | _ | _ | m <;>
    rw [h30] at hne h4 <;>
    simp only [unpackRot, h30] <;>
    interval_cases k <;>
    simp only [rotComponent] <;>
    first
      | exact absurd rfl hne
      | omega
      | exact decodeTen_mem _

/-- The decompressed rotation columns are exactly the four components of
`unpackRot` applied to the packed word of the same row. -/
lemma decompressPly_rot_link (ply : PlyData) (i : ℕ)
    (hi : i < (vertexTableOf ply).numRows) :
    ((decompressPly ply).f32At "rot_0" i,
     (decompressPly ply).f32At "rot_1" i,
     (decompressPly ply).f32At "rot_2" i,
     (decompressPly ply).f32At "rot_3" i) =
      unpackRot ((vertexTableOf ply).u32At "packed_rotation" i) := by
  simp [decompressPly, PlyTable.f32At, PlyTable.u32At, PlyTable.getColumnByName,
    List.find?, PlyColData.asF32, getD_range_map hi, List.getElem?_range hi]

/-- A minimal well-formed compressed PLY (1 splat, 1 chunk, 9 SH columns),
used to witness the codec theorems. -/
def exPlySh : PlyData :=
  ⟨[⟨"chunk", ⟨requiredChunkProperties.map (fun n => ⟨n, .f32 [0]⟩)⟩⟩,
    ⟨"vertex", ⟨vertexProperties.map (fun n => ⟨n, .u32 [0]⟩)⟩⟩,
    ⟨"sh", ⟨(List.range 9).map (fun k => ⟨s!"f_rest_{k}", .u8 [0]⟩)⟩⟩]⟩

/-- C2: for every splat of an accepted input, `decompressPly` unpacks
`packed_rotation` with the smallest-three scheme: the rotation columns are
the components of `unpackRot`; bits 31-30 select which quaternion component
(0 → rot_0, 1 → rot_1, 2 → rot_2, 3 → rot_3) was dropped; the other three
components are decoded from the 10-bit fields at bits 29-20, 19-10, 9-0 as
`((field / 1023) - 0.5) * (1 / (sqrt 2 * 0.5))`, hence lie in
`[-1/√2, 1/√2]`; and the dropped component is
`sqrt (max 0 (1 - a² - b² - c²))`, hence always non-negative. -/
theorem decompressPly_smallest_three (ply : PlyData)
    (h : isCompressedPly ply = true) (i : ℕ)
    (hi : i < (vertexTableOf ply).numRows) :
    ((decompressPly ply).f32At "rot_0" i,
     (decompressPly ply).f32At "rot_1" i,
     (decompressPly ply).f32At "rot_2" i,
     (decompressPly ply).f32At "rot_3" i) =
      unpackRot ((vertexTableOf ply).u32At "packed_rotation" i) ∧
    (∀ v : ℕ, v < 2 ^ 32 → unpackRot v = smallestThreeSpec v) ∧
    (∀ v : ℕ, 0 ≤ rotComponent (unpackRot v) (v >>> 30)) ∧
    (∀ v : ℕ, v < 2 ^ 32 → ∀ k : ℕ, k < 4 → k ≠ v >>> 30 →
      rotComponent (unpackRot v) k ∈ Set.Icc (-(1 / Real.sqrt 2)) (1 / Real.sqrt 2)) :=
  ⟨decompressPly_rot_link ply i hi, unpackRot_eq_spec, rotComponent_dropped_nonneg,
   rotComponent_undropped_mem⟩

/-- Witness for C2 at the concrete input `exPlySh`, row 0. -/
theorem decompressPly_smallest_three_witness :
    isCompressedPly exPlySh = true ∧ 0 < (vertexTableOf exPlySh).numRows ∧
    (((decompressPly exPlySh).f32At "rot_0" 0,
      (decompressPly exPlySh).f32At "rot_1" 0,
      (decompressPly exPlySh).f32At "rot_2" 0,
      (decompressPly exPlySh).f32At "rot_3" 0) =
        unpackRot ((vertexTableOf exPlySh).u32At "packed_rotation" 0) ∧
     (∀ v : ℕ, v < 2 ^ 32 → unpackRot v = smallestThreeSpec v) ∧
     (∀ v : ℕ, 0 ≤ rotComponent (unpackRot v) (v >>> 30)) ∧
     (∀ v : ℕ, v < 2 ^ 32 → ∀ k : ℕ, k < 4 → k ≠ v >>> 30 →
       rotComponent (unpackRot v) k ∈ Set.Icc (-(1 / Real.sqrt 2)) (1 / Real.sqrt 2))) :=
  ⟨by decide, by decide, decompressPly_smallest_three exPlySh (by decide) 0 (by decide)⟩

/-- C8: on every accepted input the decompressed table consists of exactly
the 14 float32 base columns in order, plus (when an `sh` element is present)
one float32 column per input SH column with the same name; and every output
column has the vertex element's row count. -/
theorem decompressPly_columns (ply : PlyData) (h : isCompressedPly ply = true) :
    (decompressPly ply).columns.map (fun c => c.name) =
      ["x", "y", "z", "f_dc_0", "f_dc_1", "f_dc_2", "opacity",
       "rot_0", "rot_1", "rot_2", "rot_3", "scale_0", "scale_1", "scale_2"] ++
      (match ply.elements.find? (fun e => e.name == "sh") with
       | some sh => sh.dataTable.columns.map (fun c => c.name)
       | none => []) ∧
    ∀ c ∈ (decompressPly ply).columns,
      c.dataType = "float32" ∧ c.data.length = (vertexTableOf ply).numRows := by
  constructor
  · simp only [decompressPly]
    cases hfs : ply.elements.find? (fun e => e.name == "sh") with
    | none => simp
    | some sh => simp [List.map_map, Function.comp]
  · intro c hc
    simp only [decompressPly, List.mem_append] at hc
    rcases hc with hc | hc
    · simp only [List.mem_cons, List.not_mem_nil, or_false] at hc
      rcases hc with rfl | rfl | rfl | rfl | rfl | rfl | rfl | rfl | rfl | rfl | rfl |
        rfl | rfl | rfl <;>
        simp [PlyColumn.dataType, PlyColData.dataType, PlyColData.length]
    · cases hfs : ply.elements.find? (fun e => e.name == "sh") with
      | none => rw [hfs] at hc; simp at hc
      | some sh =>
        rw [hfs] at hc
        obtain ⟨col, hcol, rfl⟩ := List.mem_map.1 hc
        simp [PlyColumn.dataType, PlyColData.dataType, PlyColData.length]

/-- Witness for C8 at the concrete input `exPlySh`. -/
theorem decompressPly_columns_witness :
    isCompressedPly exPlySh = true ∧
    ((decompressPly exPlySh).columns.map (fun c => c.name) =
      ["x", "y", "z", "f_dc_0", "f_dc_1", "f_dc_2", "opacity",
       "rot_0", "rot_1", "rot_2", "rot_3", "scale_0", "scale_1", "scale_2"] ++
      (match exPlySh.elements.find? (fun e => e.name == "sh") with
       | some sh => sh.dataTable.columns.map (fun c => c.name)
       | none => []) ∧
    ∀ c ∈ (decompressPly exPlySh).columns,
      c.dataType = "float32" ∧ c.data.length = (vertexTableOf exPlySh).numRows) :=
  ⟨by decide, decompressPly_columns exPlySh (by decide)⟩

/-! ## RotateSH (src/unnamed rotate-sh module, lines 1-191)

Rotation of spherical-harmonic coefficients up to band 3.  The source class
precomputes the band matrices `sh1`, `sh2`, `sh3` from a 3x3 rotation matrix
(`Mat3.data`, 9 entries) and applies them with dot products. -/

noncomputable section

def kSqrt03_02 : ℝ := Real.sqrt (3.0 / 2.0)

def kSqrt01_03 : ℝ := Real.sqrt (1.0 / 3.0)

def kSqrt02_03 : ℝ := Real.sqrt (2.0 / 3.0)

def kSqrt04_03 : ℝ := Real.sqrt (4.0 / 3.0)

def kSqrt01_04 : ℝ := Real.sqrt (1.0 / 4.0)

def kSqrt03_04 : ℝ := Real.sqrt (3.0 / 4.0)

def kSqrt01_05 : ℝ := Real.sqrt (1.0 / 5.0)

def kSqrt03_05 : ℝ := Real.sqrt (3.0 / 5.0)

def kSqrt06_05 : ℝ := Real.sqrt (6.0 / 5.0)

def kSqrt08_05 : ℝ := Real.sqrt (8.0 / 5.0)

def kSqrt09_05 : ℝ := Real.sqrt (9.0 / 5.0)

def kSqrt01_06 : ℝ := Real.sqrt (1.0 / 6.0)

def kSqrt05_06 : ℝ := Real.sqrt (5.0 / 6.0)

def kSqrt03_08 : ℝ := Real.sqrt (3.0 / 8.0)

def kSqrt05_08 : ℝ := Real.sqrt (5.0 / 8.0)

def kSqrt09_08 : ℝ := Real.sqrt (9.0 / 8.0)

def kSqrt05_09 : ℝ := Real.sqrt (5.0 / 9.0)

def kSqrt08_09 : ℝ := Real.sqrt (8.0 / 9.0)

def kSqrt01_10 : ℝ := Real.sqrt (1.0 / 10.0)

def kSqrt03_10 : ℝ := Real.sqrt (3.0 / 10.0)

def kSqrt01_12 : ℝ := Real.sqrt (1.0 / 12.0)

def kSqrt04_15 : ℝ := Real.sqrt (4.0 / 15.0)

def kSqrt01_16 : ℝ := Real.sqrt (1.0 / 16.0)

def kSqrt15_16 : ℝ := Real.sqrt (15.0 / 16.0)

def kSqrt01_18 : ℝ := Real.sqrt (1.0 / 18.0)

def kSqrt01_60 : ℝ := Real.sqrt (1.0 / 60.0)

/-- `dp(n, start, a, b)`: the loop `sum += a[start + i] * b[i]`, accumulated
in ascending order. -/
def dp : ℕ → ℕ → List ℝ → List ℝ → ℝ
  | 0, _, _, _ => 0
  | (n + 1), start, a, b => dp n start a b + a.getD (start + n) 0 * b.getD n 0

/-- The band-1 (3x3) SH rotation matrix, from the `Mat3.data` entries. -/
def sh1Mat (rot : Fin 9 → ℝ) : List (List ℝ) :=
  [[rot 4, -rot 7, rot 1],
   [-rot 5, rot 8, -rot 2],
   [rot 3, -rot 6, rot 0]]

/-- The band-2 (5x5) SH rotation matrix, a fixed quadratic combination of
band-1 entries. -/
def sh2Mat (rot : Fin 9 → ℝ) : List (List ℝ) :=
  let s := fun (i j : ℕ) => ((sh1Mat rot).getD i []).getD j 0
  [[kSqrt01_04 * ((s 2 2 * s 0 0 + s 2 0 * s 0 2) + (s 0 2 * s 2 0 + s 0 0 * s 2 2)),
    (s 2 1 * s 0 0 + s 0 1 * s 2 0),
    kSqrt03_04 * (s 2 1 * s 0 1 + s 0 1 * s 2 1),
    (s 2 1 * s 0 2 + s 0 1 * s 2 2),
    kSqrt01_04 * ((s 2 2 * s 0 2 - s 2 0 * s 0 0) + (s 0 2 * s 2 2 - s 0 0 * s 2 0))],
   [kSqrt01_04 * ((s 1 2 * s 0 0 + s 1 0 * s 0 2) + (s 0 2 * s 1 0 + s 0 0 * s 1 2)),
    s 1 1 * s 0 0 + s 0 1 * s 1 0,
    kSqrt03_04 * (s 1 1 * s 0 1 + s 0 1 * s 1 1),
    s 1 1 * s 0 2 + s 0 1 * s 1 2,
    kSqrt01_04 * ((s 1 2 * s 0 2 - s 1 0 * s 0 0) + (s 0 2 * s 1 2 - s 0 0 * s 1 0))],
   [kSqrt01_03 * (s 1 2 * s 1 0 + s 1 0 * s 1 2) -
      kSqrt01_12 * ((s 2 2 * s 2 0 + s 2 0 * s 2 2) + (s 0 2 * s 0 0 + s 0 0 * s 0 2)),
    kSqrt04_03 * s 1 1 * s 1 0 - kSqrt01_03 * (s 2 1 * s 2 0 + s 0 1 * s 0 0),
    s 1 1 * s 1 1 - kSqrt01_04 * (s 2 1 * s 2 1 + s 0 1 * s 0 1),
    kSqrt04_03 * s 1 1 * s 1 2 - kSqrt01_03 * (s 2 1 * s 2 2 + s 0 1 * s 0 2),
    kSqrt01_03 * (s 1 2 * s 1 2 - s 1 0 * s 1 0) -
      kSqrt01_12 * ((s 2 2 * s 2 2 - s 2 0 * s 2 0) + (s 0 2 * s 0 2 - s 0 0 * s 0 0))],
   [kSqrt01_04 * ((s 1 2 * s 2 0 + s 1 0 * s 2 2) + (s 2 2 * s 1 0 + s 2 0 * s 1 2)),
    s 1 1 * s 2 0 + s 2 1 * s 1 0,
    kSqrt03_04 * (s 1 1 * s 2 1 + s 2 1 * s 1 1),
    s 1 1 * s 2 2 + s 2 1 * s 1 2,
    kSqrt01_04 * ((s 1 2 * s 2 2 - s 1 0 * s 2 0) + (s 2 2 * s 1 2 - s 2 0 * s 1 0))],
   [kSqrt01_04 * ((s 2 2 * s 2 0 + s 2 0 * s 2 2) - (s 0 2 * s 0 0 + s 0 0 * s 0 2)),
    (s 2 1 * s 2 0 - s 0 1 * s 0 0),
    kSqrt03_04 * (s 2 1 * s 2 1 - s 0 1 * s 0 1),
    (s 2 1 * s 2 2 - s 0 1 * s 0 2),
    kSqrt01_04 * ((s 2 2 * s 2 2 - s 2 0 * s 2 0) - (s 0 2 * s 0 2 - s 0 0 * s 0 0))]]

/-- The band-3 (7x7) SH rotation matrix, a fixed combination of band-1 and
band-2 entries. -/
def sh3Mat (rot : Fin 9 → ℝ) : List (List ℝ) :=
  let s := fun (i j : ℕ) => ((sh1Mat rot).getD i []).getD j 0
  let t := fun (i j : ℕ) => ((sh2Mat rot).getD i []).getD j 0
  [[kSqrt01_04 * ((s 2 2 * t 0 0 + s 2 0 * t 0 4) + (s 0 2 * t 4 0 + s 0 0 * t 4 4)),
    kSqrt03_02 * (s 2 1 * t 0 0 + s 0 1 * t 4 0),
    kSqrt15_16 * (s 2 1 * t 0 1 + s 0 1 * t 4 1),
    kSqrt05_06 * (s 2 1 * t 0 2 + s 0 1 * t 4 2),
    kSqrt15_16 * (s 2 1 * t 0 3 + s 0 1 * t 4 3),
    kSqrt03_02 * (s 2 1 * t 0 4 + s 0 1 * t 4 4),
    kSqrt01_04 * ((s 2 2 * t 0 4 - s 2 0 * t 0 0) + (s 0 2 * t 4 4 - s 0 0 * t 4 0))],
   [kSqrt01_06 * (s 1 2 * t 0 0 + s 1 0 * t 0 4) +
      kSqrt01_06 * ((s 2 2 * t 1 0 + s 2 0 * t 1 4) + (s 0 2 * t 3 0 + s 0 0 * t 3 4)),
    s 1 1 * t 0 0 + (s 2 1 * t 1 0 + s 0 1 * t 3 0),
    kSqrt05_08 * s 1 1 * t 0 1 + kSqrt05_08 * (s 2 1 * t 1 1 + s 0 1 * t 3 1),
    kSqrt05_09 * s 1 1 * t 0 2 + kSqrt05_09 * (s 2 1 * t 1 2 + s 0 1 * t 3 2),
    kSqrt05_08 * s 1 1 * t 0 3 + kSqrt05_08 * (s 2 1 * t 1 3 + s 0 1 * t 3 3),
    s 1 1 * t 0 4 + (s 2 1 * t 1 4 + s 0 1 * t 3 4),
    kSqrt01_06 * (s 1 2 * t 0 4 - s 1 0 * t 0 0) +
      kSqrt01_06 * ((s 2 2 * t 1 4 - s 2 0 * t 1 0) + (s 0 2 * t 3 4 - s 0 0 * t 3 0))],
   [kSqrt04_15 * (s 1 2 * t 1 0 + s 1 0 * t 1 4) + kSqrt01_05 * (s 0 2 * t 2 0 + s 0 0 * t 2 4) -
      kSqrt01_60 * ((s 2 2 * t 0 0 + s 2 0 * t 0 4) - (s 0 2 * t 4 0 + s 0 0 * t 4 4)),
    kSqrt08_05 * s 1 1 * t 1 0 + kSqrt06_05 * s 0 1 * t 2 0 -
      kSqrt01_10 * (s 2 1 * t 0 0 - s 0 1 * t 4 0),
    s 1 1 * t 1 1 + kSqrt03_04 * s 0 1 * t 2 1 - kSqrt01_16 * (s 2 1 * t 0 1 - s 0 1 * t 4 1),
    kSqrt08_09 * s 1 1 * t 1 2 + kSqrt02_03 * s 0 1 * t 2 2 -
      kSqrt01_18 * (s 2 1 * t 0 2 - s 0 1 * t 4 2),
    s 1 1 * t 1 3 + kSqrt03_04 * s 0 1 * t 2 3 - kSqrt01_16 * (s 2 1 * t 0 3 - s 0 1 * t 4 3),
    kSqrt08_05 * s 1 1 * t 1 4 + kSqrt06_05 * s 0 1 * t 2 4 -
      kSqrt01_10 * (s 2 1 * t 0 4 - s 0 1 * t 4 4),
    kSqrt04_15 * (s 1 2 * t 1 4 - s 1 0 * t 1 0) + kSqrt01_05 * (s 0 2 * t 2 4 - s 0 0 * t 2 0) -
      kSqrt01_60 * ((s 2 2 * t 0 4 - s 2 0 * t 0 0) - (s 0 2 * t 4 4 - s 0 0 * t 4 0))],
   [kSqrt03_10 * (s 1 2 * t 2 0 + s 1 0 * t 2 4) -
      kSqrt01_10 * ((s 2 2 * t 3 0 + s 2 0 * t 3 4) + (s 0 2 * t 1 0 + s 0 0 * t 1 4)),
    kSqrt09_05 * s 1 1 * t 2 0 - kSqrt03_05 * (s 2 1 * t 3 0 + s 0 1 * t 1 0),
    kSqrt09_08 * s 1 1 * t 2 1 - kSqrt03_08 * (s 2 1 * t 3 1 + s 0 1 * t 1 1),
    s 1 1 * t 2 2 - kSqrt01_03 * (s 2 1 * t 3 2 + s 0 1 * t 1 2),
    kSqrt09_08 * s 1 1 * t 2 3 - kSqrt03_08 * (s 2 1 * t 3 3 + s 0 1 * t 1 3),
    kSqrt09_05 * s 1 1 * t 2 4 - kSqrt03_05 * (s 2 1 * t 3 4 + s 0 1 * t 1 4),
    kSqrt03_10 * (s 1 2 * t 2 4 - s 1 0 * t 2 0) -
      kSqrt01_10 * ((s 2 2 * t 3 4 - s 2 0 * t 3 0) + (s 0 2 * t 1 4 - s 0 0 * t 1 0))],
   [kSqrt04_15 * (s 1 2 * t 3 0 + s 1 0 * t 3 4) + kSqrt01_05 * (s 2 2 * t 2 0 + s 2 0 * t 2 4) -
      kSqrt01_60 * ((s 2 2 * t 4 0 + s 2 0 * t 4 4) + (s 0 2 * t 0 0 + s 0 0 * t 0 4)),
    kSqrt08_05 * s 1 1 * t 3 0 + kSqrt06_05 * s 2 1 * t 2 0 -
      kSqrt01_10 * (s 2 1 * t 4 0 + s 0 1 * t 0 0),
    s 1 1 * t 3 1 + kSqrt03_04 * s 2 1 * t 2 1 - kSqrt01_16 * (s 2 1 * t 4 1 + s 0 1 * t 0 1),
    kSqrt08_09 * s 1 1 * t 3 2 + kSqrt02_03 * s 2 1 * t 2 2 -
      kSqrt01_18 * (s 2 1 * t 4 2 + s 0 1 * t 0 2),
    s 1 1 * t 3 3 + kSqrt03_04 * s 2 1 * t 2 3 - kSqrt01_16 * (s 2 1 * t 4 3 + s 0 1 * t 0 3),
    kSqrt08_05 * s 1 1 * t 3 4 + kSqrt06_05 * s 2 1 * t 2 4 -
      kSqrt01_10 * (s 2 1 * t 4 4 + s 0 1 * t 0 4),
    kSqrt04_15 * (s 1 2 * t 3 4 - s 1 0 * t 3 0) + kSqrt01_05 * (s 2 2 * t 2 4 - s 2 0 * t 2 0) -
      kSqrt01_60 * ((s 2 2 * t 4 4 - s 2 0 * t 4 0) + (s 0 2 * t 0 4 - s 0 0 * t 0 0))],
   [kSqrt01_06 * (s 1 2 * t 4 0 + s 1 0 * t 4 4) +
      kSqrt01_06 * ((s 2 2 * t 3 0 + s 2 0 * t 3 4) - (s 0 2 * t 1 0 + s 0 0 * t 1 4)),
    s 1 1 * t 4 0 + (s 2 1 * t 3 0 - s 0 1 * t 1 0),
    kSqrt05_08 * s 1 1 * t 4 1 + kSqrt05_08 * (s 2 1 * t 3 1 - s 0 1 * t 1 1),
    kSqrt05_09 * s 1 1 * t 4 2 + kSqrt05_09 * (s 2 1 * t 3 2 - s 0 1 * t 1 2),
    kSqrt05_08 * s 1 1 * t 4 3 + kSqrt05_08 * (s 2 1 * t 3 3 - s 0 1 * t 1 3),
    s 1 1 * t 4 4 + (s 2 1 * t 3 4 - s 0 1 * t 1 4),
    kSqrt01_06 * (s 1 2 * t 4 4 - s 1 0 * t 4 0) +
      kSqrt01_06 * ((s 2 2 * t 3 4 - s 2 0 * t 3 0) - (s 0 2 * t 1 4 - s 0 0 * t 1 0))],
   [kSqrt01_04 * ((s 2 2 * t 4 0 + s 2 0 * t 4 4) - (s 0 2 * t 0 0 + s 0 0 * t 0 4)),
    kSqrt03_02 * (s 2 1 * t 4 0 - s 0 1 * t 0 0),
    kSqrt15_16 * (s 2 1 * t 4 1 - s 0 1 * t 0 1),
    kSqrt05_06 * (s 2 1 * t 4 2 - s 0 1 * t 0 2),
    kSqrt15_16 * (s 2 1 * t 4 3 - s 0 1 * t 0 3),
    kSqrt03_02 * (s 2 1 * t 4 4 - s 0 1 * t 0 4),
    kSqrt01_04 * ((s 2 2 * t 4 4 - s 2 0 * t 4 0) - (s 0 2 * t 0 4 - s 0 0 * t 0 0))]]

/-- `RotateSH.apply` as a pure function: rewrites bands 1-3 of a coefficient
vector (length-gated exactly as the source: fewer than 3 coefficients are
untouched; bands beyond the vector's length are skipped), reading every dot
product from a snapshot of the input (the source copies `result` into
`coeffsIn` before overwriting). -/
def applyRotateSH (rot : Fin 9 → ℝ) (coeffs : List ℝ) : List ℝ :=
  if coeffs.length < 3 then coeffs else
  let b1 := [dp 3 0 coeffs ((sh1Mat rot).getD 0 []),
             dp 3 0 coeffs ((sh1Mat rot).getD 1 []),
             dp 3 0 coeffs ((sh1Mat rot).getD 2 [])]
  if coeffs.length < 8 then b1 ++ coeffs.drop 3 else
  let b2 := [dp 5 3 coeffs ((sh2Mat rot).getD 0 []),
             dp 5 3 coeffs ((sh2Mat rot).getD 1 []),
             dp 5 3 coeffs ((sh2Mat rot).getD 2 []),
             dp 5 3 coeffs ((sh2Mat rot).getD 3 []),
             dp 5 3 coeffs ((sh2Mat rot).getD 4 [])]
  if coeffs.length < 15 then b1 ++ b2 ++ coeffs.drop 8 else
  let b3 := [dp 7 8 coeffs ((sh3Mat rot).getD 0 []),
             dp 7 8 coeffs ((sh3Mat rot).getD 1 []),
             dp 7 8 coeffs ((sh3Mat rot).getD 2 []),
             dp 7 8 coeffs ((sh3Mat rot).getD 3 []),
             dp 7 8 coeffs ((sh3Mat rot).getD 4 []),
             dp 7 8 coeffs ((sh3Mat rot).getD 5 []),
             dp 7 8 coeffs ((sh3Mat rot).getD 6 [])]
  b1 ++ b2 ++ b3 ++ coeffs.drop 15

/-- The `Mat3.data` of the 3x3 identity matrix. -/
def mat3Identity : Fin 9 → ℝ := fun i => if i = 0 ∨ i = 4 ∨ i = 8 then 1 else 0

end

lemma kSqrt01_04_eq : kSqrt01_04 = 0.5 := by
  rw [kSqrt01_04, show (1.0 / 4.0 : ℝ) = (0.5 : ℝ) ^ 2 by norm_num,
    Real.sqrt_sq (by norm_num)]

lemma sh1Mat_id : sh1Mat mat3Identity = [[1, 0, 0], [0, 1, 0], [0, 0, 1]] := by
  norm_num [sh1Mat, mat3Identity]
  decide

lemma sh2Mat_id :
    sh2Mat mat3Identity =
      [[1, 0, 0, 0, 0], [0, 1, 0, 0, 0], [0, 0, 1, 0, 0], [0, 0, 0, 1, 0], [0, 0, 0, 0, 1]] := by
  norm_num [sh2Mat, sh1Mat_id, kSqrt01_04_eq]

lemma sh3Mat_id :
    sh3Mat mat3Identity =
      [[1, 0, 0, 0, 0, 0, 0], [0, 1, 0, 0, 0, 0, 0], [0, 0, 1, 0, 0, 0, 0],
       [0, 0, 0, 1, 0, 0, 0], [0, 0, 0, 0, 1, 0, 0], [0, 0, 0, 0, 0, 1, 0],
       [0, 0, 0, 0, 0, 0, 1]] := by
  norm_num [sh3Mat, sh1Mat_id, sh2Mat_id, kSqrt01_04_eq]

lemma applyRotateSH_id_three (a0 a1 a2 : ℝ) :
    applyRotateSH mat3Identity [a0, a1, a2] = [a0, a1, a2] := by
  norm_num [applyRotateSH, dp, sh1Mat_id]

lemma applyRotateSH_id_eight (a0 a1 a2 a3 a4 a5 a6 a7 : ℝ) :
    applyRotateSH mat3Identity [a0, a1, a2, a3, a4, a5, a6, a7] =
      [a0, a1, a2, a3, a4, a5, a6, a7] := by
  norm_num [applyRotateSH, dp, sh1Mat_id, sh2Mat_id]

lemma applyRotateSH_id_fifteen
    (a0 a1 a2 a3 a4 a5 a6 a7 a8 a9 a10 a11 a12 a13 a14 : ℝ) :
    applyRotateSH mat3Identity
        [a0, a1, a2, a3, a4, a5, a6, a7, a8, a9, a10, a11, a12, a13, a14] =
      [a0, a1, a2, a3, a4, a5, a6, a7, a8, a9, a10, a11, a12, a13, a14] := by
  norm_num [applyRotateSH, dp, sh1Mat_id, sh2Mat_id, sh3Mat_id]

lemma list_len_succ {α : Type} (l : List α) (n : ℕ) (h : l.length = n + 1) :
    ∃ a t, l = a :: t ∧ t.length = n := by
  cases l with
  | nil => simp at h
  | cons a t => exact ⟨a, t, rfl, by simpa using h⟩

/-- C5: applying `RotateSH` built from the 3x3 identity rotation matrix to
any coefficient vector of length 3, 8 or 15 leaves every coefficient
unchanged (exactly, in the real-number model of the float arithmetic). -/
theorem rotateSH_identity_id (coeffs : List ℝ)
    (h : coeffs.length = 3 ∨ coeffs.length = 8 ∨ coeffs.length = 15) :
    applyRotateSH mat3Identity coeffs = coeffs := by
  rcases h with h | h | h
  · obtain ⟨a0, l0, rfl, h0⟩ := list_len_succ _ _ h
    obtain ⟨a1, l1, rfl, h1⟩ := list_len_succ _ _ h0
    obtain ⟨a2, l2, rfl, h2⟩ := list_len_succ _ _ h1
    rw [List.length_eq_zero.1 h2]
    exact applyRotateSH_id_three a0 a1 a2
  · obtain ⟨a0, l0, rfl, h0⟩ := list_len_succ _ _ h
    obtain ⟨a1, l1, rfl, h1⟩ := list_len_succ _ _ h0
    obtain ⟨a2, l2, rfl, h2⟩ := list_len_succ _ _ h1
    obtain ⟨a3, l3, rfl, h3⟩ := list_len_succ _ _ h2
    obtain ⟨a4, l4, rfl, h4⟩ := list_len_succ _ _ h3
    obtain ⟨a5, l5, rfl, h5⟩ := list_len_succ _ _ h4
    obtain ⟨a6, l6, rfl, h6⟩ := list_len_succ _ _ h5
    obtain ⟨a7, l7, rfl, h7⟩ := list_len_succ _ _ h6
    rw [List.length_eq_zero.1 h7]
    exact applyRotateSH_id_eight a0 a1 a2 a3 a4 a5 a6 a7
  · obtain ⟨a0, l0, rfl, h0⟩ := list_len_succ _ _ h
    obtain ⟨a1, l1, rfl, h1⟩ := list_len_succ _ _ h0
    obtain ⟨a2, l2, rfl, h2⟩ := list_len_succ _ _ h1
    obtain ⟨a3, l3, rfl, h3⟩ := list_len_succ _ _ h2
    obtain ⟨a4, l4, rfl, h4⟩ := list_len_succ _ _ h3
    obtain ⟨a5, l5, rfl, h5⟩ := list_len_succ _ _ h4
    obtain ⟨a6, l6, rfl, h6⟩ := list_len_succ _ _ h5
    obtain ⟨a7, l7, rfl, h7⟩ := list_len_succ _ _ h6
    obtain ⟨a8, l8, rfl, h8⟩ := list_len_succ _ _ h7
    obtain ⟨a9, l9, rfl, h9⟩ := list_len_succ _ _ h8
    obtain ⟨a10, l10, rfl, h10⟩ := list_len_succ _ _ h9
    obtain ⟨a11, l11, rfl, h11⟩ := list_len_succ _ _ h10
    obtain ⟨a12, l12, rfl, h12⟩ := list_len_succ _ _ h11
    obtain ⟨a13, l13, rfl, h13⟩ := list_len_succ _ _ h12
    obtain ⟨a14, l14, rfl, h14⟩ := list_len_succ _ _ h13
    rw [List.length_eq_zero.1 h14]
    exact applyRotateSH_id_fifteen a0 a1 a2 a3 a4 a5 a6 a7 a8 a9 a10 a11 a12 a13 a14

/-- Witness for C5 on a concrete length-15 coefficient vector. -/
theorem rotateSH_identity_id_witness :
    ([(1 : ℝ), 2, 3, 4, 5, 6, 7, 8, 9, 10, 11, 12, 13, 14, 15].length = 3 ∨
     [(1 : ℝ), 2, 3, 4, 5, 6, 7, 8, 9, 10, 11, 12, 13, 14, 15].length = 8 ∨
     [(1 : ℝ), 2, 3, 4, 5, 6, 7, 8, 9, 10, 11, 12, 13, 14, 15].length = 15) ∧
    applyRotateSH mat3Identity [(1 : ℝ), 2, 3, 4, 5, 6, 7, 8, 9, 10, 11, 12, 13, 14, 15] =
      [(1 : ℝ), 2, 3, 4, 5, 6, 7, 8, 9, 10, 11, 12, 13, 14, 15] :=
  ⟨by simp, rotateSH_identity_id _ (by simp)⟩

/-! ## Pipeline data model (src/unnamed process module, src/lib/data-table)

`DataTable` for the processing pipeline.  JS numbers here include the
non-finite values the `filterNaN` action is about, so cells are modelled as
`JsVal`.  Modelled from the spec: §3 Table/Column and §4.1 operations
(`hasColumn`, `getColumn`, `addColumn`, `getRow`, `permuteRows`,
`permuteRowsInPlace`) — `data-table.ts` is not among the staged sources. -/

/-- A JS number as stored in a column: finite, `±Infinity`, or `NaN`. -/
inductive JsVal where
  | num : ℝ → JsVal
  | posInf : JsVal
  | negInf : JsVal
  | nan : JsVal

/-- Finite check (`isFinite`). -/
def JsVal.isFiniteB : JsVal → Bool
  | .num _ => true
  | _ => false

/-- Numeric view used by the spec-modelled score/transform helpers (the
claims proved about them never inspect non-finite cells there). -/
def JsVal.toReal : JsVal → ℝ
  | .num x => x
  | _ => 0

/-- A pipeline column. -/
structure Column where
  name : String
  data : List JsVal

/-- A pipeline data table. -/
structure DataTable where
  columns : List Column

/-- Row count, read off the first column (0 for an empty table); the spec's
invariant makes all columns share it. -/
def DataTable.numRows (dt : DataTable) : ℕ :=
  ((dt.columns.head?).map (fun c => c.data.length)).getD 0

/-- `DataTable.columnNames`. -/
def DataTable.columnNames (dt : DataTable) : List String :=
  dt.columns.map (fun c => c.name)

/-- `DataTable.getColumnByName`. -/
def DataTable.getColumnByName (dt : DataTable) (name : String) : Option Column :=
  dt.columns.find? (fun c => c.name == name)

/-- `DataTable.hasColumn`. -/
def DataTable.hasColumn (dt : DataTable) (name : String) : Bool :=
  (dt.getColumnByName name).isSome

/-- `DataTable.addColumn` (append; the spec's precondition — fresh name,
matching length — holds at the one call site, the `lod` action). -/
def DataTable.addColumn (dt : DataTable) (c : Column) : DataTable :=
  ⟨dt.columns ++ [c]⟩

/-- The field map `getRow` materializes for predicate evaluation:
`none` models JS `undefined` for a column the table does not have. -/
def DataTable.rowGet (dt : DataTable) (i : ℕ) (name : String) : Option JsVal :=
  (dt.getColumnByName name).map (fun c => c.data.getD i .nan)

/-- `DataTable.permuteRows`: new table whose rows are `indices.map`; used
with in-range indices only (filtering keep-lists and permutations). -/
def DataTable.permuteRows (dt : DataTable) (indices : List ℕ) : DataTable :=
  ⟨dt.columns.map (fun c => ⟨c.name, indices.map (fun i => c.data.getD i .nan)⟩)⟩

/-- The `filter` helper of the process module: collect the indices (in
ascending row order) whose row satisfies the predicate, then permute. -/
def filter (dataTable : DataTable)
    (predicate : (String → Option JsVal) → ℕ → Bool) : DataTable :=
  dataTable.permuteRows
    ((List.range dataTable.numRows).filter (fun i => predicate (dataTable.rowGet i) i))

/-! ## Process actions (src/unnamed process module, lines 10-173) -/

/-- A 3D vector (playcanvas `Vec3`). -/
structure Vec3 where
  x : ℝ
  y : ℝ
  z : ℝ

/-- A quaternion (playcanvas `Quat`, `(x, y, z, w)`). -/
structure Quat where
  x : ℝ
  y : ℝ
  z : ℝ
  w : ℝ

/-- The comparison operator union type of `FilterByValue`. -/
inductive Comparator where
  | lt | lte | gt | gte | eq | neq
deriving DecidableEq

/-- `ProcessAction`: the tagged union of pipeline actions. -/
inductive ProcessAction where
  | translate (value : Vec3)
  | rotate (value : Vec3)
  | scale (value : ℝ)
  | filterNaN
  | filterByValue (columnName : String) (comparator : Comparator) (value : ℝ)
  | filterBands (value : ℕ)
  | filterBox (min max : Vec3)
  | filterSphere (center : Vec3) (radius : ℝ)
  | param (name value : String)
  | lod (value : ℝ)
  | summary
  | mortonOrder
  | filterVisibility (count : Option ℤ) (percent : Option ℝ)

/-- `f_rest_k`. -/
def shName (k : ℕ) : String := s!"f_rest_{k}"

/-- `shNames`: the 45 SH coefficient column names. -/
def shNames : List String := (List.range 45).map shName

/-- JS `Array.prototype.findIndex`: index of the first hit, `-1` if none. -/
def jsFindIndex {α : Type} (p : α → Bool) : List α → Int
  | [] => -1
  | a :: as =>
    if p a then 0 else
    let r := jsFindIndex p as
    if r = -1 then -1 else r + 1

/-- The band-count lookup `{'9': 1, '24': 2, '-1': 3}[idx] ?? 0`. -/
def bandsFromIndex (idx : Int) : ℕ :=
  if idx = 9 then 1 else if idx = 24 then 2 else if idx = -1 then 3 else 0

/-- The SH band count the `filterBands` action detects on a table. -/
def detectBands (dt : DataTable) : ℕ :=
  bandsFromIndex (jsFindIndex (fun v => !dt.hasColumn v) shNames)

/-- `[0, 3, 8, 15]`: per-channel coefficient count by band count. -/
def coeffCounts : List ℕ := [0, 3, 8, 15]

/-- The rename map the `filterBands` action builds: source order (`i` outer,
channel `j` inner), `none` value = drop the column. -/
def buildBandMap (inputCoeffs outputCoeffs : ℕ) : List (String × Option String) :=
  (List.range inputCoeffs).flatMap (fun i =>
    (List.range 3).map (fun j =>
      (shName (i + j * inputCoeffs),
       if i < outputCoeffs then some (shName (i + j * outputCoeffs)) else none)))

noncomputable section

/-- `inverseTransforms`: user-facing value → raw PLY space (logit for
opacity, log for the scales, affine for the color DC terms). -/
def inverseTransforms (name : String) : Option (ℝ → ℝ) :=
  if name == "opacity" then some (fun v => Real.log (v / (1 - v)))
  else if name == "scale_0" then some Real.log
  else if name == "scale_1" then some Real.log
  else if name == "scale_2" then some Real.log
  else if name == "f_dc_0" then some (fun v => (v - 0.5) / SH_C0)
  else if name == "f_dc_1" then some (fun v => (v - 0.5) / SH_C0)
  else if name == "f_dc_2" then some (fun v => (v - 0.5) / SH_C0)
  else none

/-- `rawColumnMap`: `_raw`-suffixed names → underlying PLY column. -/
def rawColumnMap (name : String) : Option String :=
  if name == "opacity_raw" then some "opacity"
  else if name == "scale_0_raw" then some "scale_0"
  else if name == "scale_1_raw" then some "scale_1"
  else if name == "scale_2_raw" then some "scale_2"
  else if name == "f_dc_0_raw" then some "f_dc_0"
  else if name == "f_dc_1_raw" then some "f_dc_1"
  else if name == "f_dc_2_raw" then some "f_dc_2"
  else none

/-- JS `<` on a cell (left) and a finite number (right): `undefined` and
`NaN` compare false. -/
def jsLt : Option JsVal → ℝ → Bool
  | some (.num x), b => decide (x < b)
  | some .negInf, _ => true
  | _, _ => false

/-- JS `<=`. -/
def jsLe : Option JsVal → ℝ → Bool
  | some (.num x), b => decide (x ≤ b)
  | some .negInf, _ => true
  | _, _ => false

/-- JS `>`. -/
def jsGt : Option JsVal → ℝ → Bool
  | some (.num x), b => decide (b < x)
  | some .posInf, _ => true
  | _, _ => false

/-- JS `>=`. -/
def jsGe : Option JsVal → ℝ → Bool
  | some (.num x), b => decide (b ≤ x)
  | some .posInf, _ => true
  | _, _ => false

/-- JS `===` against a finite number (`NaN === x` is false). -/
def jsEq : Option JsVal → ℝ → Bool
  | some (.num x), b => decide (x = b)
  | _, _ => false

/-- The predicate table of the `filterByValue` case, dispatched on the
comparator (`neq` is JS `!==`, the negation of `===`). -/
def comparePredicate (cmp : Comparator) (cell : Option JsVal) (value : ℝ) : Bool :=
  match cmp with
  | .lt => jsLt cell value
  | .lte => jsLe cell value
  | .gt => jsGt cell value
  | .gte => jsGe cell value
  | .eq => jsEq cell value
  | .neq => !jsEq cell value

/-! ### Spec-modelled collaborators of processDataTable

`transform.ts`, `filter-visibility.ts` and `morton-order.ts` are not among
the staged sources; the models below follow spec §4.4 (translate / rotate /
scale column effects) and §4.5 (visibility score, Morton ordering).  The
claims proved against them use only their row bookkeeping. -/

/-- Insertion step of the spec-modelled stable sort. -/
def insertBy (le : ℕ → ℕ → Bool) (a : ℕ) : List ℕ → List ℕ
  | [] => [a]
  | b :: l => if le a b then a :: b :: l else b :: insertBy le a l

/-- Stable insertion sort over row indices. -/
def sortBy (le : ℕ → ℕ → Bool) : List ℕ → List ℕ
  | [] => []
  | a :: l => insertBy le a (sortBy le l)

/-- A cell as a real number (0 for absent / out of range). -/
def cellReal (dt : DataTable) (name : String) (i : ℕ) : ℝ :=
  match dt.getColumnByName name with
  | some c => (c.data.getD i .nan).toReal
  | none => 0

/-- Modelled from the spec: §4.5 visibility score
`sigmoid(raw_opacity) * exp(scale_0) * exp(scale_1) * exp(scale_2)`. -/
def visibilityScore (dt : DataTable) (i : ℕ) : ℝ :=
  (1 / (1 + Real.exp (-(cellReal dt "opacity" i)))) *
    (Real.exp (cellReal dt "scale_0" i) * Real.exp (cellReal dt "scale_1" i) *
      Real.exp (cellReal dt "scale_2" i))

/-- Modelled from the spec: `sortByVisibility` ranks row indices by
visibility score, descending (`filter-visibility.ts` is not staged). -/
def sortByVisibility (dt : DataTable) (indices : List ℕ) : List ℕ :=
  sortBy (fun a b => decide (visibilityScore dt b ≤ visibilityScore dt a)) indices

/-- Bit-spread for Morton interleaving (10 bits per axis). -/
def spreadBits (n : ℕ) : ℕ :=
  (List.range 10).foldl (fun acc b => acc ||| (((n >>> b) &&& 1) <<< (3 * b))) 0

/-- All values of a column as reals. -/
def columnReals (dt : DataTable) (name : String) : List ℝ :=
  match dt.getColumnByName name with
  | some c => c.data.map JsVal.toReal
  | none => []

/-- Modelled from the spec: §4.5 Morton code — quantize each coordinate to
a 10-bit grid over the column's range and interleave the bits
(`morton-order.ts` is not staged). -/
def mortonCode (dt : DataTable) (i : ℕ) : ℕ :=
  let q := fun (name : String) =>
    let vals := columnReals dt name
    let lo := vals.foldl min (vals.headD 0)
    let hi := vals.foldl max (vals.headD 0)
    let t := (cellReal dt name i - lo) / (hi - lo) * 1023
    (max 0 (min 1023 ⌊t⌋)).toNat
  spreadBits (q "x") ||| (spreadBits (q "y") <<< 1) ||| (spreadBits (q "z") <<< 2)

/-- Modelled from the spec: `sortMortonOrder` ranks row indices by Morton
code, ascending. -/
def sortMortonOrder (dt : DataTable) (indices : List ℕ) : List ℕ :=
  sortBy (fun a b => decide (mortonCode dt a ≤ mortonCode dt b)) indices

/-- JS `Math.round` (half away from zero toward +∞ on the relevant range). -/
def jsRound (x : ℝ) : ℤ := ⌊x + 1 / 2⌋

/-- Adding a finite real to a cell (`±Infinity`/`NaN` absorb). -/
def JsVal.addReal (v : JsVal) (d : ℝ) : JsVal :=
  match v with
  | .num x => .num (x + d)
  | other => other

/-- Combine three cells with a real function; any non-finite input yields
`NaN` (spec-modelled simplification of the non-finite edge cases). -/
def js3 (a b c : JsVal) (f : ℝ → ℝ → ℝ → ℝ) : JsVal :=
  match a, b, c with
  | .num x, .num y, .num z => .num (f x y z)
  | _, _, _ => .nan

/-- Combine four cells with a real function. -/
def js4 (a b c d : JsVal) (f : ℝ → ℝ → ℝ → ℝ → ℝ) : JsVal :=
  match a, b, c, d with
  | .num x, .num y, .num z, .num w => .num (f x y z w)
  | _, _, _, _ => .nan

/-- The identity quaternion. -/
def quatIdentity : Quat := ⟨0, 0, 0, 1⟩

/-- The zero vector. -/
def vec3Zero : Vec3 := ⟨0, 0, 0⟩

/-- Hamilton product. -/
def quatMul (a b : Quat) : Quat :=
  ⟨a.w * b.x + a.x * b.w + a.y * b.z - a.z * b.y,
   a.w * b.y - a.x * b.z + a.y * b.w + a.z * b.x,
   a.w * b.z + a.x * b.y - a.y * b.x + a.z * b.w,
   a.w * b.w - a.x * b.x - a.y * b.y - a.z * b.z⟩

/-- The 3x3 rotation matrix of a unit quaternion (`Mat3.data` layout). -/
def quatToMat3 (q : Quat) : Fin 9 → ℝ := fun i =>
  match (i : ℕ) with
  | 0 => 1 - 2 * (q.y ^ 2 + q.z ^ 2)
  | 1 => 2 * (q.x * q.y + q.z * q.w)
  | 2 => 2 * (q.x * q.z - q.y * q.w)
  | 3 => 2 * (q.x * q.y - q.z * q.w)
  | 4 => 1 - 2 * (q.x ^ 2 + q.z ^ 2)
  | 5 => 2 * (q.y * q.z + q.x * q.w)
  | 6 => 2 * (q.x * q.z + q.y * q.w)
  | 7 => 2 * (q.y * q.z - q.x * q.w)
  | _ => 1 - 2 * (q.x ^ 2 + q.y ^ 2)

/-- Modelled from the spec: quaternion from Euler angles in degrees
(playcanvas `Quat.setFromEulerAngles`, XYZ order). -/
def eulerToQuat (e : Vec3) : Quat :=
  let hx := e.x * (Real.pi / 180) / 2
  let hy := e.y * (Real.pi / 180) / 2
  let hz := e.z * (Real.pi / 180) / 2
  let sx := Real.sin hx
  let cx := Real.cos hx
  let sy := Real.sin hy
  let cy := Real.cos hy
  let sz := Real.sin hz
  let cz := Real.cos hz
  ⟨sx * cy * cz - cx * sy * sz,
   cx * sy * cz + sx * cy * sz,
   cx * cy * sz - sx * sy * cz,
   cx * cy * cz + sx * sy * sz⟩

/-- Rotate a vector by a quaternion (via its matrix, column-major apply). -/
def quatApply (q : Quat) (x y z : ℝ) : Vec3 :=
  let m := quatToMat3 q
  ⟨m 0 * x + m 3 * y + m 6 * z,
   m 1 * x + m 4 * y + m 7 * z,
   m 2 * x + m 5 * y + m 8 * z⟩

/-- The rotated SH coefficient that lands in column `f_rest_k` of a row:
gather the row's per-channel coefficient vector, rotate it with
`applyRotateSH`, and read the slot back. -/
def shRotatedValue (dt : DataTable) (q : Quat) (i k : ℕ) : ℝ :=
  let nC := coeffCounts.getD (detectBands dt) 0
  let ch := k / nC
  let vec := (List.range nC).map (fun m => cellReal dt (shName (ch * nC + m)) i)
  (applyRotateSH (quatToMat3 q) vec).getD (k % nC) 0

/-- The transformed cell of column `c` at row `i`; spec §4.4: positions get
the rigid transform, quaternions compose, log-scales shift by `ln s`, SH
coefficients are re-projected, all other columns are untouched. -/
def transformValue (dt : DataTable) (t : Vec3) (q : Quat) (s : ℝ)
    (c : Column) (i : ℕ) : JsVal :=
  let cell := fun (name : String) =>
    match dt.getColumnByName name with
    | some col => col.data.getD i .nan
    | none => .nan
  if c.name == "x" then
    js3 (cell "x") (cell "y") (cell "z") (fun x y z => (quatApply q x y z).x * s + t.x)
  else if c.name == "y" then
    js3 (cell "x") (cell "y") (cell "z") (fun x y z => (quatApply q x y z).y * s + t.y)
  else if c.name == "z" then
    js3 (cell "x") (cell "y") (cell "z") (fun x y z => (quatApply q x y z).z * s + t.z)
  else if c.name == "rot_0" then
    js4 (cell "rot_0") (cell "rot_1") (cell "rot_2") (cell "rot_3")
      (fun a b cc d => (quatMul q ⟨b, cc, d, a⟩).w)
  else if c.name == "rot_1" then
    js4 (cell "rot_0") (cell "rot_1") (cell "rot_2") (cell "rot_3")
      (fun a b cc d => (quatMul q ⟨b, cc, d, a⟩).x)
  else if c.name == "rot_2" then
    js4 (cell "rot_0") (cell "rot_1") (cell "rot_2") (cell "rot_3")
      (fun a b cc d => (quatMul q ⟨b, cc, d, a⟩).y)
  else if c.name == "rot_3" then
    js4 (cell "rot_0") (cell "rot_1") (cell "rot_2") (cell "rot_3")
      (fun a b cc d => (quatMul q ⟨b, cc, d, a⟩).z)
  else if c.name == "scale_0" || c.name == "scale_1" || c.name == "scale_2" then
    (c.data.getD i .nan).addReal (Real.log s)
  else
    match (List.range 45).find? (fun k => shName k == c.name) with
    | some k => .num (shRotatedValue dt q i k)
    | none => c.data.getD i .nan

/-- Modelled from the spec: `transform(dataTable, translation, rotation,
scale)` — an in-place, column-preserving write, modelled as a rebuild of
every column at the table's row count (`transform.ts` is not staged). -/
def transformTable (dt : DataTable) (t : Vec3) (q : Quat) (s : ℝ) : DataTable :=
  ⟨dt.columns.map (fun c =>
    ⟨c.name, (List.range dt.numRows).map (fun i => transformValue dt t q s c i)⟩)⟩

end

noncomputable section

/-- The `filterNaN` predicate: iterates the *captured* table's column names;
a `NaN` (or `undefined`) cell fails, `-Infinity` passes for the
`infOk ∪ negInfOk` names, `+Infinity` passes for the `infOk` names. -/
def nanPredicate (columnNames : List String) (row : String → Option JsVal) : Bool :=
  columnNames.all (fun key =>
    match row key with
    | some (.num _) => true
    | some .negInf =>
      key == "opacity" || (key == "scale_0" || key == "scale_1" || key == "scale_2")
    | some .posInf => key == "opacity"
    | _ => false)

/-- One iteration of the `processDataTable` loop: `dataTable` is the
function argument the loop's closures capture (used by `filterNaN` and
`filterBands`), `result` the current value.  The `Predicates[comparator] ??
keep-all` fallback of the source is dead code here: the comparator union
type makes the lookup total. -/
def applyAction (dataTable : DataTable) (result : DataTable) :
    ProcessAction → DataTable
  | .translate value => transformTable result value quatIdentity 1
  | .rotate value => transformTable result vec3Zero (eulerToQuat value) 1
  | .scale value => transformTable result vec3Zero quatIdentity value
  | .filterNaN =>
    filter result (fun row _ => nanPredicate dataTable.columnNames row)
  | .filterByValue columnName comparator value =>
    let p :=
      match rawColumnMap columnName with
      | some c => (c, value)
      | none =>
        match inverseTransforms columnName with
        | some f => (columnName, f value)
        | none => (columnName, value)
    filter result (fun row _ => comparePredicate comparator (row p.1) p.2)
  | .filterBands value =>
    let inputBands := detectBands dataTable
    if value < inputBands then
      let inputCoeffs := coeffCounts.getD inputBands 0
      let outputCoeffs := coeffCounts.getD value 0
      ⟨result.columns.filterMap (fun column =>
        match (buildBandMap inputCoeffs outputCoeffs).lookup column.name with
        | some (some nm) => some (⟨nm, column.data⟩ : Column)
        | some none => none
        | none => some column)⟩
    else result
  | .filterBox mn mx =>
    filter result (fun row _ =>
      jsGe (row "x") mn.x && jsLe (row "x") mx.x &&
      jsGe (row "y") mn.y && jsLe (row "y") mx.y &&
      jsGe (row "z") mn.z && jsLe (row "z") mx.z)
  | .filterSphere center radius =>
    -- `(x-cx)² + (y-cy)² + (z-cz)² < r²` is false in JS whenever a
    -- coordinate is non-finite (the sum is then `+Infinity` or `NaN`).
    filter result (fun row _ =>
      match row "x", row "y", row "z" with
      | some (.num x), some (.num y), some (.num z) =>
        decide ((x - center.x) ^ 2 + (y - center.y) ^ 2 + (z - center.z) ^ 2 <
          radius * radius)
      | _, _, _ => false)
  | .param _ _ => result
  | .lod value =>
    let r := if result.hasColumn "lod" then result
             else result.addColumn ⟨"lod", List.replicate result.numRows (.num 0)⟩
    ⟨r.columns.map (fun c =>
      if c.name == "lod" then ⟨c.name, c.data.map (fun _ => JsVal.num value)⟩ else c)⟩
  | .summary => result
  | .mortonOrder => result.permuteRows (sortMortonOrder result (List.range result.numRows))
  | .filterVisibility count percent =>
    let sorted := sortByVisibility result (List.range result.numRows)
    let keepCount : ℤ :=
      match count with
      | some cnt => min cnt (result.numRows : ℤ)
      | none => jsRound ((result.numRows : ℝ) * (percent.getD 100) / 100)
    let keepCount := max 0 keepCount
    -- `indices.subarray(0, keepCount)` clamps its end to the array length
    result.permuteRows (sorted.take keepCount.toNat)

/-- `processDataTable`: fold the action list, starting from the input. -/
def processDataTable (dataTable : DataTable) (processActions : List ProcessAction) :
    DataTable :=
  processActions.foldl (applyAction dataTable) dataTable

end

/-- Claim C4's inverse transform, as the claim words it: `log(v / (1 - v))`
for opacity, `log` for the scale columns, `(v - 0.5) / 0.28209479177387814`
for the color DC columns. -/
noncomputable def inverseTransformSpec (name : String) (v : ℝ) : ℝ :=
  if name == "opacity" then Real.log (v / (1 - v))
  else if name == "scale_0" || name == "scale_1" || name == "scale_2" then Real.log v
  else (v - 0.5) / SH_C0

/-- The seven value-transformed column names. -/
def transformedColumns : List String :=
  ["opacity", "scale_0", "scale_1", "scale_2", "f_dc_0", "f_dc_1", "f_dc_2"]

/-- The `_raw` bypass pairs (suffixed name, underlying raw column). -/
def rawColumnPairs : List (String × String) :=
  [("opacity_raw", "opacity"), ("scale_0_raw", "scale_0"), ("scale_1_raw", "scale_1"),
   ("scale_2_raw", "scale_2"), ("f_dc_0_raw", "f_dc_0"), ("f_dc_1_raw", "f_dc_1"),
   ("f_dc_2_raw", "f_dc_2")]

/-- C4: for the seven transformed columns, `filterByValue(col, cmp, v)`
keeps exactly the rows a direct raw-space comparison against
`inverseTransform(col)(v)` keeps, with the same comparator; each inverse
transform is strictly monotonic increasing on its domain; and a `_raw`
suffix bypasses the conversion, comparing raw values directly. -/
theorem filterByValue_raw_space :
    (∀ name ∈ transformedColumns, ∀ (dt : DataTable) (cmp : Comparator) (v : ℝ),
      processDataTable dt [.filterByValue name cmp v] =
        filter dt (fun row _ => comparePredicate cmp (row name) (inverseTransformSpec name v))) ∧
    (StrictMonoOn (fun v : ℝ => Real.log (v / (1 - v))) (Set.Ioo 0 1) ∧
     StrictMonoOn Real.log (Set.Ioi 0) ∧
     StrictMono (fun v : ℝ => (v - 0.5) / SH_C0)) ∧
    (∀ pr ∈ rawColumnPairs, ∀ (dt : DataTable) (cmp : Comparator) (v : ℝ),
      processDataTable dt [.filterByValue pr.1 cmp v] =
        filter dt (fun row _ => comparePredicate cmp (row pr.2) v)) := by
  refine ⟨?_, ⟨?_, ?_, ?_⟩, ?_⟩
  · intro name hname dt cmp v
    fin_cases hname <;>
      simp [processDataTable, applyAction, rawColumnMap, inverseTransforms,
        inverseTransformSpec]
  · intro a ha b hb hab
    have h1 : a / (1 - a) < b / (1 - b) := by
      rw [div_lt_div_iff (by linarith [ha.2]) (by linarith [hb.2])]
      nlinarith [ha.1, hb.1, ha.2, hb.2]
    exact Real.log_lt_log (div_pos ha.1 (by linarith [ha.2])) h1
  · exact Real.strictMonoOn_log
  · intro a b hab
    have hc : (0 : ℝ) < SH_C0 := by norm_num [SH_C0]
    simpa using div_lt_div_of_pos_right (by linarith) hc
  · intro pr hpr dt cmp v
    fin_cases hpr <;>
      simp [processDataTable, applyAction, rawColumnMap]

/-- A small concrete table for pipeline witnesses. -/
def exDt : DataTable :=
  ⟨[⟨"x", [JsVal.num 1, JsVal.num 2]⟩,
    ⟨"opacity", [JsVal.num 0, JsVal.posInf]⟩,
    ⟨"scale_0", [JsVal.negInf, JsVal.num 1]⟩]⟩

/-- Witness for C4 at the concrete column `opacity` and table `exDt`. -/
theorem filterByValue_raw_space_witness :
    "opacity" ∈ transformedColumns ∧
    processDataTable exDt [.filterByValue "opacity" .gt 0.75] =
      filter exDt
        (fun row _ => comparePredicate .gt (row "opacity") (inverseTransformSpec "opacity" 0.75)) :=
  ⟨by decide, filterByValue_raw_space.1 "opacity" (by decide) exDt .gt 0.75⟩

lemma all_map_eq {α β : Type} (l : List α) (f : α → β) (p : β → Bool) :
    (l.map f).all p = l.all (fun a => p (f a)) := by
  induction l with
  | nil => rfl
  | cons a t ih => simp [List.all_cons, ih]

lemma all_congr_bool {α : Type} {l : List α} {p q : α → Bool}
    (h : ∀ a ∈ l, p a = q a) : l.all p = l.all q := by
  induction l with
  | nil => rfl
  | cons a t ih =>
    simp only [List.all_cons, h a (List.mem_cons_self a t)]
    rw [ih (fun b hb => h b (List.mem_cons_of_mem a hb))]

/-- Under unique column names, looking a member column up by its own name
finds it. -/
lemma find?_name_of_mem (cols : List Column)
    (hnd : (cols.map (fun c => c.name)).Nodup) (c : Column) (hc : c ∈ cols) :
    cols.find? (fun d => d.name == c.name) = some c := by
  induction cols with
  | nil => simp at hc
  | cons d l ih =>
    simp only [List.map_cons, List.nodup_cons] at hnd
    rcases List.mem_cons.1 hc with rfl | hc2
    · simp [List.find?]
    · have hne : (d.name == c.name) = false := by
        simp only [beq_eq_false_iff_ne, ne_eq]
        intro h
        exact hnd.1 (h ▸ List.mem_map_of_mem (fun c => c.name) hc2)
    
      rw [List.find?_cons_of_neg _ (by simp [hne])]
      exact ih hnd.2 hc2

/-- Claim C6's keep condition, per column: every value finite, except
`±Infinity` accepted in `opacity` and `-Infinity` in `scale_0..2`. -/
def nanKeepSpec (dt : DataTable) (i : ℕ) : Bool :=
  dt.columns.all (fun c =>
    match c.data.getD i .nan with
    | .num _ => true
    | .posInf => c.name == "opacity"
    | .negInf =>
      c.name == "opacity" || (c.name == "scale_0" || c.name == "scale_1" ||
        c.name == "scale_2")
    | .nan => false)

/-- C6: `filterNaN` keeps exactly the rows in which every column's value is
finite, except that `±Infinity` is accepted in `opacity` and `-Infinity` in
`scale_0..2`; kept rows retain their original relative order (the result is
the permutation by the ascending list of kept indices). -/
theorem filterNaN_spec (dt : DataTable)
    (hnd : (dt.columns.map (fun c => c.name)).Nodup) :
    processDataTable dt [.filterNaN] =
      dt.permuteRows ((List.range dt.numRows).filter (fun i => nanKeepSpec dt i)) := by
  show filter dt (fun row _ => nanPredicate dt.columnNames row) = _
  unfold filter
  congr 1
  refine List.filter_congr ?_
  intro i _
  unfold nanPredicate nanKeepSpec DataTable.columnNames
  beta_reduce
  rw [all_map_eq]
  refine all_congr_bool ?_
  intro c hc
  have hlook : dt.rowGet i c.name = some (c.data.getD i .nan) := by
    unfold DataTable.rowGet DataTable.getColumnByName
    rw [find?_name_of_mem dt.columns hnd c hc]
    rfl
  rw [hlook]
  cases c.data.getD i JsVal.nan <;> rfl

/-- Witness for C6 at the concrete table `exDt`. -/
theorem filterNaN_spec_witness :
    (exDt.columns.map (fun c => c.name)).Nodup ∧
    processDataTable exDt [.filterNaN] =
      exDt.permuteRows ((List.range exDt.numRows).filter (fun i => nanKeepSpec exDt i)) :=
  ⟨by decide, filterNaN_spec exDt (by decide)⟩

/-- The `filterBands` step as a function of the *detected input band count*
alone (plus the table being rewritten): renames/drops the coefficient
columns of the current table by name. -/
def bandsStep (inputBands : ℕ) (r : DataTable) (n : ℕ) : DataTable :=
  if n < inputBands then
    let inputCoeffs := coeffCounts.getD inputBands 0
    let outputCoeffs := coeffCounts.getD n 0
    ⟨r.columns.filterMap (fun column =>
      match (buildBandMap inputCoeffs outputCoeffs).lookup column.name with
      | some (some nm) => some (⟨nm, column.data⟩ : Column)
      | some none => none
      | none => some column)⟩
  else r

/-- C10: within one `processDataTable` call, the `filterNaN` and
`filterBands` steps inspect the column set of the *original* table
argument, not of the current intermediate result: appended as the last
action after any prefix `as`, `filterNaN` filters with the original's
`columnNames` and `filterBands` truncates by the band count detected with
`hasColumn` on the original — column-set changes made by `as` are invisible
to both. -/
theorem filterNaN_filterBands_use_original :
    (∀ (dt : DataTable) (as : List ProcessAction),
      processDataTable dt (as ++ [.filterNaN]) =
        filter (processDataTable dt as)
          (fun row _ => nanPredicate dt.columnNames row)) ∧
    (∀ (dt : DataTable) (as : List ProcessAction) (n : ℕ),
      processDataTable dt (as ++ [.filterBands n]) =
        bandsStep (detectBands dt) (processDataTable dt as) n) := by
  constructor
  · intro dt as
    unfold processDataTable
    rw [List.foldl_append]
    rfl
  · intro dt as n
    unfold processDataTable
    rw [List.foldl_append]
    rfl

/-- The spec's table invariant: every column's buffer length equals the
table's row count. -/
def DataTable.Wf (dt : DataTable) : Prop :=
  ∀ c ∈ dt.columns, c.data.length = dt.numRows

lemma insertBy_length (le : ℕ → ℕ → Bool) (a : ℕ) (l : List ℕ) :
    (insertBy le a l).length = l.length + 1 := by
  induction l with
  | nil => rfl
  | cons b t ih =>
    unfold insertBy
    by_cases h : le a b = true <;> simp [h, ih]

lemma sortBy_length (le : ℕ → ℕ → Bool) (l : List ℕ) :
    (sortBy le l).length = l.length := by
  induction l with
  | nil => rfl
  | cons a t ih => simp [sortBy, insertBy_length, ih]

lemma permuteRows_numRows_le (dt : DataTable) (idx : List ℕ) :
    (dt.permuteRows idx).numRows ≤ idx.length := by
  unfold DataTable.permuteRows DataTable.numRows
  cases dt.columns <;> simp

lemma permuteRows_numRows_eq (dt : DataTable) (idx : List ℕ)
    (h : idx.length = dt.numRows) : (dt.permuteRows idx).numRows = dt.numRows := by
  obtain ⟨cols⟩ := dt
  simp only [DataTable.permuteRows, DataTable.numRows] at h ⊢
  cases cols <;> simp_all

lemma permuteRows_wf (dt : DataTable) (idx : List ℕ) : (dt.permuteRows idx).Wf := by
  obtain ⟨cols⟩ := dt
  intro c hc
  simp only [DataTable.permuteRows, DataTable.numRows] at hc ⊢
  cases cols with
  | nil => simp at hc
  | cons d l =>
    simp only [List.map_cons, List.mem_cons, List.mem_map] at hc
    rcases hc with rfl | ⟨e, _, rfl⟩ <;> simp

lemma filter_numRows_le (dt : DataTable)
    (p : (String → Option JsVal) → ℕ → Bool) : (filter dt p).numRows ≤ dt.numRows := by
  refine le_trans (permuteRows_numRows_le _ _) ?_
  calc ((List.range dt.numRows).filter _).length ≤ (List.range dt.numRows).length :=
        List.length_filter_le _ _
    _ = dt.numRows := List.length_range _

lemma filter_wf (dt : DataTable) (p : (String → Option JsVal) → ℕ → Bool) :
    (filter dt p).Wf := permuteRows_wf _ _

lemma transformTable_numRows (dt : DataTable) (t : Vec3) (q : Quat) (s : ℝ) :
    (transformTable dt t q s).numRows = dt.numRows := by
  unfold transformTable DataTable.numRows
  cases dt.columns <;> simp

lemma transformTable_wf (dt : DataTable) (t : Vec3) (q : Quat) (s : ℝ) :
    (transformTable dt t q s).Wf := by
  intro c hc
  rw [transformTable_numRows]
  unfold transformTable at hc
  simp only [List.mem_map] at hc
  obtain ⟨d, _, rfl⟩ := hc
  simp

lemma mk_numRows_le_of_lens (L : List Column) (n : ℕ)
    (hlen : ∀ c ∈ L, c.data.length = n) :
    (DataTable.mk L).numRows ≤ n ∧ (DataTable.mk L).Wf := by
  cases L with
  | nil =>
    constructor
    · simp [DataTable.numRows]
    · intro c hc; simp at hc
  | cons d l =>
    have hd : (DataTable.mk (d :: l)).numRows = n := by
      simp [DataTable.numRows, hlen d (List.mem_cons_self d l)]
    constructor
    · rw [hd]
    · intro c hc; rw [hd]; exact hlen c hc

lemma mk_filterMap_bands (r : DataTable) (hr : r.Wf) (f : Column → Option Column)
    (hf : ∀ c c', f c = some c' → c'.data = c.data) :
    (DataTable.mk (r.columns.filterMap f)).numRows ≤ r.numRows ∧
      (DataTable.mk (r.columns.filterMap f)).Wf := by
  refine mk_numRows_le_of_lens _ _ ?_
  intro c' hc'
  obtain ⟨c, hc, hfc⟩ := List.mem_filterMap.1 hc'
  rw [hf c c' hfc]
  exact hr c hc

lemma lod_fill_numRows (r : DataTable) (v : ℝ) :
    (DataTable.mk (r.columns.map (fun c =>
      if c.name == "lod" then ⟨c.name, c.data.map (fun _ => JsVal.num v)⟩ else c))).numRows =
      r.numRows := by
  unfold DataTable.numRows
  cases h : r.columns with
  | nil => simp
  | cons c l =>
    by_cases hn : c.name = "lod" <;> simp [hn]

lemma lod_fill_wf (r : DataTable) (hr : r.Wf) (v : ℝ) :
    (DataTable.mk (r.columns.map (fun c =>
      if c.name == "lod" then ⟨c.name, c.data.map (fun _ => JsVal.num v)⟩ else c))).Wf := by
  intro c hc
  rw [lod_fill_numRows]
  simp only [List.mem_map] at hc
  obtain ⟨d, hd, rfl⟩ := hc
  by_cases hn : d.name = "lod" <;> simp [hn, hr d hd]

lemma addColumn_lod_numRows (r : DataTable) :
    (r.addColumn ⟨"lod", List.replicate r.numRows (.num 0)⟩).numRows = r.numRows := by
  unfold DataTable.addColumn DataTable.numRows
  cases r.columns <;> simp

lemma addColumn_lod_wf (r : DataTable) (hr : r.Wf) :
    (r.addColumn ⟨"lod", List.replicate r.numRows (.num 0)⟩).Wf := by
  intro c hc
  rw [addColumn_lod_numRows]
  unfold DataTable.addColumn at hc
  rcases List.mem_append.1 hc with hc | hc
  · exact hr c hc
  · simp only [List.mem_singleton] at hc
    subst hc
    simp

lemma applyAction_lod (orig r : DataTable) (v : ℝ) :
    (applyAction orig r (.lod v)).numRows = r.numRows ∧
      (r.Wf → (applyAction orig r (.lod v)).Wf) := by
  have hbody : applyAction orig r (.lod v) =
      DataTable.mk ((if r.hasColumn "lod" then r
        else r.addColumn ⟨"lod", List.replicate r.numRows (.num 0)⟩).columns.map (fun c =>
          if c.name == "lod" then ⟨c.name, c.data.map (fun _ => JsVal.num v)⟩ else c)) := rfl
  rw [hbody]
  by_cases h : r.hasColumn "lod" = true
  · rw [if_pos h]
    exact ⟨lod_fill_numRows r v, fun hr => lod_fill_wf r hr v⟩
  · rw [if_neg h]
    refine ⟨(lod_fill_numRows _ v).trans (addColumn_lod_numRows r), fun hr => ?_⟩
    exact lod_fill_wf _ (addColumn_lod_wf r hr) v

lemma applyAction_step (orig r : DataTable) (hr : r.Wf) (a : ProcessAction) :
    (applyAction orig r a).numRows ≤ r.numRows ∧ (applyAction orig r a).Wf := by
  cases a with
  | translate v =>
    exact ⟨le_of_eq (transformTable_numRows r v quatIdentity 1),
      transformTable_wf r v quatIdentity 1⟩
  | rotate v =>
    exact ⟨le_of_eq (transformTable_numRows r vec3Zero (eulerToQuat v) 1),
      transformTable_wf r vec3Zero (eulerToQuat v) 1⟩
  | scale f =>
    exact ⟨le_of_eq (transformTable_numRows r vec3Zero quatIdentity f),
      transformTable_wf r vec3Zero quatIdentity f⟩
  | filterNaN => exact ⟨filter_numRows_le _ _, filter_wf _ _⟩
  | filterByValue nm cmp v => exact ⟨filter_numRows_le _ _, filter_wf _ _⟩
  | filterBands n =>
    have hbody : applyAction orig r (.filterBands n) = bandsStep (detectBands orig) r n := rfl
    rw [hbody]
    unfold bandsStep
    by_cases h : n < detectBands orig
    · rw [if_pos h]
      refine mk_filterMap_bands r hr _ ?_
      intro c c' hfc
      rcases hb : (buildBandMap (coeffCounts.getD (detectBands orig) 0)
          (coeffCounts.getD n 0)).lookup c.name with _ | onm
      · rw [hb] at hfc; simp at hfc; rw [← hfc]
      · rcases onm with _ | nm
        · rw [hb] at hfc; simp at hfc
        · rw [hb] at hfc
          simp only [Option.some.injEq] at hfc
          rw [← hfc]
    · rw [if_neg h]
      exact ⟨le_refl _, hr⟩
  | filterBox mn mx => exact ⟨filter_numRows_le _ _, filter_wf _ _⟩
  | filterSphere c rad => exact ⟨filter_numRows_le _ _, filter_wf _ _⟩
  | param nm vl => exact ⟨le_refl _, hr⟩
  | lod v =>
    obtain ⟨h1, h2⟩ := applyAction_lod orig r v
    exact ⟨le_of_eq h1, h2 hr⟩
  | summary => exact ⟨le_refl _, hr⟩
  | mortonOrder =>
    have hlen : (sortMortonOrder r (List.range r.numRows)).length = r.numRows := by
      unfold sortMortonOrder
      rw [sortBy_length, List.length_range]
    exact ⟨le_of_eq (permuteRows_numRows_eq _ _ hlen), permuteRows_wf _ _⟩
  | filterVisibility cnt pct =>
    constructor
    · refine le_trans (permuteRows_numRows_le _ _) ?_
      rw [List.length_take]
      refine le_trans (min_le_right _ _) ?_
      unfold sortByVisibility
      rw [sortBy_length, List.length_range]
    · exact permuteRows_wf _ _

/-- C9: for every well-formed table and action sequence, `processDataTable`
never grows the row count: `translate`, `rotate`, `scale`, `lod`, `summary`,
`param` and `mortonOrder` preserve it exactly, every action's step is
non-increasing (the filters only remove rows, and `filterVisibility`'s kept
index list is clamped to the row count in both count and percent mode). -/
theorem processDataTable_row_count :
    (∀ (dt : DataTable) (actions : List ProcessAction), dt.Wf →
      (processDataTable dt actions).numRows ≤ dt.numRows) ∧
    (∀ (orig r : DataTable) (v : Vec3),
      (applyAction orig r (.translate v)).numRows = r.numRows) ∧
    (∀ (orig r : DataTable) (v : Vec3),
      (applyAction orig r (.rotate v)).numRows = r.numRows) ∧
    (∀ (orig r : DataTable) (f : ℝ),
      (applyAction orig r (.scale f)).numRows = r.numRows) ∧
    (∀ (orig r : DataTable) (v : ℝ),
      (applyAction orig r (.lod v)).numRows = r.numRows) ∧
    (∀ orig r : DataTable, (applyAction orig r .summary).numRows = r.numRows) ∧
    (∀ (orig r : DataTable) (nm vl : String),
      (applyAction orig r (.param nm vl)).numRows = r.numRows) ∧
    (∀ orig r : DataTable, (applyAction orig r .mortonOrder).numRows = r.numRows) ∧
    (∀ (orig r : DataTable) (a : ProcessAction), r.Wf →
      (applyAction orig r a).numRows ≤ r.numRows) := by
  refine ⟨?_, ?_, ?_, ?_, ?_, ?_, ?_, ?_, ?_⟩
  · intro dt actions hwf
    suffices h : ∀ (acts : List ProcessAction) (r : DataTable), r.Wf →
        (acts.foldl (applyAction dt) r).numRows ≤ r.numRows by
      exact h actions dt hwf
    intro acts
    induction acts with
    | nil => intro r _; exact le_refl _
    | cons a t ih =>
      intro r hr
      obtain ⟨hle, hwf2⟩ := applyAction_step dt r hr a
      exact le_trans (ih (applyAction dt r a) hwf2) hle
  · intro orig r v; exact transformTable_numRows r v quatIdentity 1
  · intro orig r v; exact transformTable_numRows r vec3Zero (eulerToQuat v) 1
  · intro orig r f; exact transformTable_numRows r vec3Zero quatIdentity f
  · intro orig r v; exact (applyAction_lod orig r v).1
  · intro orig r; exact rfl
  · intro orig r nm vl; exact rfl
  · intro orig r
    have hlen : (sortMortonOrder r (List.range r.numRows)).length = r.numRows := by
      unfold sortMortonOrder
      rw [sortBy_length, List.length_range]
    exact permuteRows_numRows_eq _ _ hlen
  · intro orig r a hr; exact (applyAction_step orig r hr a).1

/-- Witness for C9 at the concrete table `exDt` and a mixed action list. -/
theorem processDataTable_row_count_witness :
    exDt.Wf ∧
    (processDataTable exDt
      [.scale 2, .filterNaN, .mortonOrder, .filterVisibility (some 1) none]).numRows ≤
      exDt.numRows := by
  have hwf : exDt.Wf := fun c hc => by fin_cases hc <;> rfl
  exact ⟨hwf,
    processDataTable_row_count.1 exDt
      [.scale 2, .filterNaN, .mortonOrder, .filterVisibility (some 1) none] hwf⟩

lemma jsFindIndex_range_map_hit (p : String → Bool) :
    ∀ (j n : ℕ) (f : ℕ → String), j < n → (∀ k, k < j → p (f k) = false) →
      p (f j) = true → jsFindIndex p ((List.range n).map f) = j := by
  intro j
  induction j with
  | zero =>
    intro n f hn hbef hhit
    obtain ⟨m, rfl⟩ : ∃ m, n = m + 1 := ⟨n - 1, by omega⟩
    rw [List.range_succ_eq_map]
    simp only [List.map_cons, List.map_map]
    unfold jsFindIndex
    rw [hhit]
    norm_num
  | succ j ih =>
    intro n f hn hbef hhit
    obtain ⟨m, rfl⟩ : ∃ m, n = m + 1 := ⟨n - 1, by omega⟩
    rw [List.range_succ_eq_map]
    simp only [List.map_cons, List.map_map]
    unfold jsFindIndex
    rw [hbef 0 (by omega)]
    have hr : jsFindIndex p ((List.range m).map (f ∘ Nat.succ)) = j := by
      refine ih m (f ∘ Nat.succ) (by omega) ?_ ?_
      · intro k hk
        exact hbef (k + 1) (by omega)
      · exact hhit
    simp only [Function.comp] at hr ⊢
    rw [hr, if_neg (by omega : ¬(j : Int) = -1)]
    push_cast
    ring

lemma jsFindIndex_range_map_none (p : String → Bool) :
    ∀ (n : ℕ) (f : ℕ → String), (∀ k, k < n → p (f k) = false) →
      jsFindIndex p ((List.range n).map f) = -1 := by
  intro n
  induction n with
  | zero => intro f _; rfl
  | succ m ih =>
    intro f hall
    rw [List.range_succ_eq_map]
    simp only [List.map_cons, List.map_map]
    unfold jsFindIndex
    rw [hall 0 (by omega)]
    have hr : jsFindIndex p ((List.range m).map (f ∘ Nat.succ)) = -1 :=
      ih (f ∘ Nat.succ) (fun k hk => hall (k + 1) (by omega))
    simp only [Function.comp] at hr ⊢
    rw [hr]
    simp

/-- Claim C3's band-count detection premise: the table has exactly the
canonical `f_rest` prefix of a layout with `N` bands (the other 45 names
are absent). -/
def shLayout (dt : DataTable) (N : ℕ) : Prop :=
  ∀ k, k < 45 → dt.hasColumn (shName k) = decide (k < 3 * coeffCounts.getD N 0)

lemma detectBands_of_layout (dt : DataTable) (N : ℕ) (hN : N ≤ 3)
    (hlay : shLayout dt N) : detectBands dt = N := by
  unfold detectBands shNames
  interval_cases N
  · rw [jsFindIndex_range_map_hit _ 0 45 shName (by norm_num)
      (fun k hk => absurd hk (by omega))
      (by simp [hlay 0 (by norm_num), coeffCounts])]
    rfl
  · rw [jsFindIndex_range_map_hit _ 9 45 shName (by norm_num)
      (fun k hk => by simp [hlay k (by omega), coeffCounts]; omega)
      (by simp [hlay 9 (by norm_num), coeffCounts])]
    rfl
  · rw [jsFindIndex_range_map_hit _ 24 45 shName (by norm_num)
      (fun k hk => by simp [hlay k (by omega), coeffCounts]; omega)
      (by simp [hlay 24 (by norm_num), coeffCounts])]
    rfl
  · rw [jsFindIndex_range_map_none _ 45 shName
      (fun k hk => by simp [hlay k (by omega), coeffCounts]; omega)]
    rfl

lemma mem_of_lookup {l : List (String × Option String)} {s : String}
    {v : Option String} (h : l.lookup s = some v) : (s, v) ∈ l := by
  induction l with
  | nil => simp [List.lookup] at h
  | cons p t ih =>
    obtain ⟨k, w⟩ := p
    rw [List.lookup] at h
    by_cases hk : (s == k) = true
    · rw [hk] at h
      simp only [Option.some.injEq] at h
      subst h
      rw [show s = k from by simpa using hk]
      exact List.mem_cons_self _ _
    · rw [Bool.eq_false_iff.2 hk] at h
      exact List.mem_cons_of_mem _ (ih h)

lemma lookup_of_mem {l : List (String × Option String)}
    (hnd : (l.map Prod.fst).Nodup) {s : String} {v : Option String}
    (hmem : (s, v) ∈ l) : l.lookup s = some v := by
  induction l with
  | nil => simp at hmem
  | cons p t ih =>
    obtain ⟨k, w⟩ := p
    simp only [List.map_cons, List.nodup_cons] at hnd
    rcases List.mem_cons.1 hmem with heq | hmem2
    · injection heq with h1 h2
      subst h1
      subst h2
      rw [List.lookup]
      simp
    · have hne : (s == k) = false := by
        simp only [beq_eq_false_iff_ne, ne_eq]
        intro hcontra
        subst hcontra
        exact hnd.1 (List.mem_map_of_mem Prod.fst hmem2)
      rw [List.lookup, hne]
      exact ih hnd.2 hmem2

lemma lookup_congr_bands {l1 l2 : List (String × Option String)}
    (h1 : (l1.map Prod.fst).Nodup) (h2 : (l2.map Prod.fst).Nodup)
    (hsub1 : ∀ p ∈ l1, p ∈ l2) (hsub2 : ∀ p ∈ l2, p ∈ l1) (s : String) :
    l1.lookup s = l2.lookup s := by
  cases hc : l1.lookup s with
  | some v => rw [lookup_of_mem h2 (hsub1 _ (mem_of_lookup hc))]
  | none =>
    cases hc2 : l2.lookup s with
    | none => rfl
    | some v =>
      rw [lookup_of_mem h1 (hsub2 _ (mem_of_lookup hc2))] at hc
      exact absurd hc (by simp)

lemma filterMap_congr_fn {α β : Type} {l : List α} {f g : α → Option β}
    (h : ∀ a ∈ l, f a = g a) : l.filterMap f = l.filterMap g := by
  induction l with
  | nil => rfl
  | cons a t ih =>
    rw [List.filterMap_cons, List.filterMap_cons, h a (List.mem_cons_self a t),
      ih (fun b hb => h b (List.mem_cons_of_mem a hb))]

/-- Claim C3's truncation map, as the claim words it: in each of the 3
colour channels independently, keep only the first `outputCoeffs`
per-channel coefficients and renumber them contiguously as
`f_rest_(i + channel * outputCoeffs)`; drop the rest. -/
def claimBandMap (N n : ℕ) : List (String × Option String) :=
  (List.range 3).flatMap (fun ch =>
    (List.range (coeffCounts.getD N 0)).map (fun i =>
      (shName (i + ch * coeffCounts.getD N 0),
       if i < coeffCounts.getD n 0 then some (shName (i + ch * coeffCounts.getD n 0))
       else none)))

/-- The table claim C3 predicts when `n < N`. -/
def claimFilterBands (dt : DataTable) (N n : ℕ) : DataTable :=
  ⟨dt.columns.filterMap (fun column =>
    match (claimBandMap N n).lookup column.name with
    | some (some nm) => some (⟨nm, column.data⟩ : Column)
    | some none => none
    | none => some column)⟩

/-- C3: on a table with a canonical `N`-band SH layout, `filterBands n`
detects `N` from the `f_rest` sentinels, truncates each of the 3 colour
channels to the first `coeffCounts[n]` coefficients with contiguous
renumbering when `n < N`, and leaves the table unchanged when `n ≥ N`. -/
theorem filterBands_spec (dt : DataTable) (N n : ℕ) (hN : N ≤ 3) (hn : n ≤ 3)
    (hlay : shLayout dt N) :
    processDataTable dt [.filterBands n] =
      if n < N then claimFilterBands dt N n else dt := by
  have hstep : processDataTable dt [.filterBands n] = bandsStep (detectBands dt) dt n := rfl
  rw [hstep, detectBands_of_layout dt N hN hlay]
  unfold bandsStep claimFilterBands
  dsimp only
  by_cases h : n < N
  · rw [if_pos h, if_pos h]
    congr 1
    refine filterMap_congr_fn ?_
    intro c _
    have hlk : (buildBandMap (coeffCounts.getD N 0) (coeffCounts.getD n 0)).lookup c.name =
        (claimBandMap N n).lookup c.name := by
      interval_cases N <;> interval_cases n <;>
        first
          | omega
          | exact lookup_congr_bands (by decide) (by decide) (by decide) (by decide) c.name
    rw [hlk]
  · rw [if_neg h, if_neg h]

/-- A concrete 1-band table (9 `f_rest` columns and `x`). -/
def exDtSh : DataTable :=
  ⟨(⟨"x", [JsVal.num 1]⟩ : Column) ::
    (List.range 9).map (fun k => (⟨shName k, [JsVal.num 0]⟩ : Column))⟩

/-- Witness for C3 at `exDtSh`, truncating 1 band to 0. -/
theorem filterBands_spec_witness :
    shLayout exDtSh 1 ∧
    processDataTable exDtSh [.filterBands 0] =
      if 0 < 1 then claimFilterBands exDtSh 1 0 else exDtSh := by
  have hlay : shLayout exDtSh 1 :=
    (by decide :
      ∀ k, k < 45 → exDtSh.hasColumn (shName k) = decide (k < 3 * coeffCounts.getD 1 0))
  exact ⟨hlay, filterBands_spec exDtSh 1 0 (by decide) (by decide) hlay⟩

/-! ## CLI argument construction (src/cli/index.ts, lines 104-139 and
213-225)

The comparator validation path of `parseArguments`: JS `throw` is modelled
with `Except.error`.  `parseArguments` runs (and throws) in `main` before
any input file is opened, so an action list is only ever built from
comparators `parseComparator` accepted. -/

/-- JS `String.prototype.trim` (ASCII whitespace, which is all the CLI
grammar produces). -/
def jsTrim (s : String) : String :=
  let ws := fun (c : Char) => c == ' ' || c == '\t' || c == '\n' || c == '\r'
  String.mk (((s.toList.dropWhile ws).reverse.dropWhile ws).reverse)

/-- JS `String.prototype.split(',')`. -/
def splitOnComma (s : String) : List String :=
  (s.toList.foldr
    (fun c acc =>
      if c == ',' then [] :: acc
      else
        match acc with
        | [] => [[c]]
        | g :: gs => (c :: g) :: gs)
    [[]]).map (fun l => String.mk l)

/-- `parseComparator`: the six accepted comparator spellings; anything else
throws `Invalid comparator value`. -/
def parseComparator (value : String) : Except String Comparator :=
  if value == "lt" then .ok .lt
  else if value == "lte" then .ok .lte
  else if value == "gt" then .ok .gt
  else if value == "gte" then .ok .gte
  else if value == "eq" then .ok .eq
  else if value == "neq" then .ok .neq
  else .error s!"Invalid comparator value: {value}"

/-- `parseNumber`, parameterized by an oracle for JS `Number(string)`
(`none` models `NaN`, which `parseNumber` rejects). -/
def parseNumberWith (jsNumber : String → Option ℝ) (value : String) :
    Except String ℝ :=
  match jsNumber value with
  | some r => .ok r
  | none => .error s!"Invalid number value: {value}"

/-- The payload of a constructed `filterByValue` action. -/
structure FilterValueArgs where
  columnName : String
  comparator : Comparator
  value : ℝ

/-- The `filter-value` branch of the CLI token loop: split on commas, trim,
require three parts, validate the comparator and the number — all before
any file is read. -/
def parseFilterValue (jsNumber : String → Option ℝ) (value : String) :
    Except String FilterValueArgs :=
  let parts := (splitOnComma value).map jsTrim
  if parts.length ≠ 3 then .error s!"Invalid filter-value value: {value}"
  else do
    let cmp ← parseComparator (parts.getD 1 "")
    let v ← parseNumberWith jsNumber (parts.getD 2 "")
    return ⟨parts.getD 0 "", cmp, v⟩

/-- The six accepted comparator spellings. -/
def comparatorNames : List String := ["lt", "lte", "gt", "gte", "eq", "neq"]

/-- C7: `parseComparator` accepts exactly the six comparators and throws on
everything else, and the `filter-value` argument parser fails whenever its
comparator field is not one of the six — for *every* number oracle, i.e.
independently of any file contents: an unknown comparator is rejected at
argument-construction time and no `filterByValue` action is ever built from
it (so the pipeline's keep-all fallback for an unknown comparator is
unreachable). -/
theorem parseComparator_rejects_unknown :
    (∀ s : String, (∃ c, parseComparator s = .ok c) ↔ s ∈ comparatorNames) ∧
    (∀ s : String, s ∉ comparatorNames →
      parseComparator s = .error s!"Invalid comparator value: {s}") ∧
    (∀ (jsNumber : String → Option ℝ) (value : String),
      ((splitOnComma value).map jsTrim).getD 1 "" ∉ comparatorNames →
      (parseFilterValue jsNumber value).isOk = false) := by
  have herr : ∀ s : String, s ∉ comparatorNames →
      parseComparator s = .error s!"Invalid comparator value: {s}" := by
    intro s hs
    simp only [comparatorNames, List.mem_cons, List.not_mem_nil, or_false, not_or] at hs
    obtain ⟨h1, h2, h3, h4, h5, h6⟩ := hs
    simp [parseComparator, h1, h2, h3, h4, h5, h6]
  refine ⟨?_, herr, ?_⟩
  · intro s
    constructor
    · rintro ⟨c, hc⟩
      by_contra hs
      rw [herr s hs] at hc
      exact absurd hc (by simp)
    · intro hs
      fin_cases hs
      · exact ⟨.lt, rfl⟩
      · exact ⟨.lte, rfl⟩
      · exact ⟨.gt, rfl⟩
      · exact ⟨.gte, rfl⟩
      · exact ⟨.eq, rfl⟩
      · exact ⟨.neq, rfl⟩
  · intro jsNumber value hbad
    unfold parseFilterValue
    by_cases hlen : ((splitOnComma value).map jsTrim).length ≠ 3
    · rw [if_pos hlen]
      rfl
    · rw [if_neg hlen, herr _ hbad]
      rfl

/-- Witness for C7 at the concrete comparator string `foo`. -/
theorem parseComparator_rejects_unknown_witness :
    ("foo" ∉ comparatorNames ∧
      parseComparator "foo" = .error "Invalid comparator value: foo") ∧
    (parseFilterValue (fun _ => some 1) "opacity,foo,0.5").isOk = false :=
  ⟨⟨by decide, parseComparator_rejects_unknown.2.1 "foo" (by decide)⟩,
   parseComparator_rejects_unknown.2.2 (fun _ => some 1) "opacity,foo,0.5" (by decide)⟩

end SplatTransform
